import Mathlib

/-!
Verification model of the RadioSFSE in-process radio playback engine
(`radio_engine.cpp`).  The definitions below are shallow embeddings of the
engine's pure logic: the track sequencer, the catalog scan, the stream-URL
resolver skeleton, the fade calculator, the per-device state store with its
snapshot/switch protocol, and the command-dispatch decision logic.

Modelling conventions:
* C++ `std::size_t` counters become `Nat`; `float`/`double` quantities that the
  code manipulates with exact field operations become `Rat`.
* File-system paths and URLs are `String`s.
* `std::map<std::string, ChannelEntry>` becomes an association list ordered by
  insertion through `mapInsert` (lookup via `mapFind`); the unordered per-device
  map becomes a function `Nat → Option DeviceState`.
* External effects (network fetches, OS backend calls, wall-clock reads,
  floating-point trigonometry for the equal-power pan curve) are supplied by
  explicit oracle structures, so each modelled function is a pure function of
  its state and its environment.
-/

namespace RadioSFSE

/-- ASCII lowercasing of one character, as `std::tolower` behaves on the ASCII
range (used by `toLowerCopy` and `RadioEngine::toLower` in the source). -/
def lowerChar (c : Char) : Char :=
  if 'A' ≤ c ∧ c ≤ 'Z' then Char.ofNat (c.toNat + 32) else c

/-- `toLowerCopy` / `RadioEngine::toLower`: lowercase every character. -/
def toLower (s : String) : String :=
  String.mk (s.data.map lowerChar)

/-- `std::isspace` on ASCII input: space, tab, newline, carriage return,
vertical tab (11) and form feed (12). -/
def isSpaceChar (c : Char) : Bool :=
  c == ' ' || c == '\t' || c == '\n' || c == '\r' || c.toNat == 11 || c.toNat == 12

/-- `trimAsciiCopy` / `RadioEngine::trim`: strip leading and trailing ASCII
whitespace. -/
def trimAscii (s : String) : String :=
  String.mk (((s.data.dropWhile isSpaceChar).reverse.dropWhile isSpaceChar).reverse)

/-- Lexicographic comparison of character lists by code point, mirroring
`operator<` on `std::string` (byte-wise lexicographic order; the modelled
catalog names are ASCII, where the two orders agree). -/
def charListLt : List Char → List Char → Bool
  | [], [] => false
  | [], _ :: _ => true
  | _ :: _, [] => false
  | a :: as, b :: bs =>
    if a.toNat < b.toNat then true
    else if b.toNat < a.toNat then false
    else charListLt as bs

/-- `operator<` on strings (see `charListLt`). -/
def strLt (a b : String) : Bool :=
  charListLt a.data b.data

/-- `std::string::starts_with`. -/
def strStartsWith (s pre : String) : Bool :=
  List.isPrefixOf pre.data s.data

/-- `ChannelType` from the engine header. -/
inductive ChannelType where
  | playlist
  | station
deriving DecidableEq, Repr

/-- `PlaybackMode` from the engine header. -/
inductive PlaybackMode where
  | none
  | playlist
  | station
deriving DecidableEq, Repr

/-- `PlaybackState` from the engine header. -/
inductive PlaybackState where
  | stopped
  | playing
  | paused
deriving DecidableEq, Repr

/-- `PlaybackBackend` tag recorded per live playback session. -/
inductive PlaybackBackend where
  | none
  | mci
  | mediaFoundationStream
  | directShowStream
deriving DecidableEq, Repr

/-- `ChannelEntry`: one playable source of the catalog. -/
structure ChannelEntry where
  key : String
  displayName : String
  type : ChannelType := ChannelType.playlist
  isStream : Bool := false
  streamUrl : String := ""
  songs : List String := []
  transitions : List String := []
  ads : List String := []
deriving DecidableEq, Repr

/-- The engine `Config` fields the modelled logic reads. -/
structure Config where
  transitionPrefix : String := "transition_"
  adPrefix : String := "ad_"
  adIntervalSongs : Nat := 3
  minFadeDistance : Rat := 150
  maxFadeDistance : Rat := 5000
  enableSpatialPan : Bool := true
  panDistance : Rat := 1200
  logFadeChanges : Bool := true
  autoRescanOnChangePlaylist : Bool := true
  loopPlaylist : Bool := true
  streamStations : List (String × String) := []
deriving Repr

/-- The sequencer cursor: the five per-device fields that
`advanceAndChooseNextTrackLocked` reads and writes. -/
structure SeqCursor where
  songIndex : Nat := 0
  transitionIndex : Nat := 0
  adIndex : Nat := 0
  songsSinceAd : Nat := 0
  previousWasSong : Bool := false
deriving DecidableEq, Repr

/-- A sequencer emission, tagged by the branch of
`advanceAndChooseNextTrackLocked` that produced the path. -/
inductive Emission where
  | song (path : String)
  | transition (path : String)
  | ad (path : String)
deriving DecidableEq, Repr

/-- Whether an emission is a song (as opposed to an ad or a transition). -/
def Emission.isSong : Emission → Bool
  | Emission.song _ => true
  | _ => false

/-- Lookup in the channel catalog (`channels_.find(key)`). -/
def mapFind (channels : List (String × ChannelEntry)) (key : String) :
    Option ChannelEntry :=
  match channels with
  | [] => none
  | kv :: rest => if kv.1 = key then some kv.2 else mapFind rest key

/-- The body of `RadioEngine::advanceAndChooseNextTrackLocked` after the
catalog lookup (source lines 2955-2998): playlist advance with loop-or-exhaust
on overflow, and the station interleave (ad when due, else transition, else
song round-robin). -/
def advanceStep (cfg : Config) (chan : ChannelEntry) (mode : PlaybackMode)
    (c : SeqCursor) : SeqCursor × Option Emission :=
  if chan.songs.isEmpty then (c, none)
  else if mode = PlaybackMode.playlist ∨ chan.type = ChannelType.playlist then
    if chan.songs.length ≤ c.songIndex + 1 then
      if cfg.loopPlaylist = false then ({ c with songIndex := c.songIndex + 1 }, none)
      else ({ c with songIndex := 0 }, some (Emission.song (chan.songs.getD 0 "")))
    else ({ c with songIndex := c.songIndex + 1 },
      some (Emission.song (chan.songs.getD (c.songIndex + 1) "")))
  else if c.previousWasSong then
    if chan.ads.isEmpty = false ∧ 0 < cfg.adIntervalSongs ∧
        cfg.adIntervalSongs ≤ c.songsSinceAd + 1 then
      ({ c with songsSinceAd := 0, adIndex := c.adIndex + 1, previousWasSong := false },
        some (Emission.ad (chan.ads.getD (c.adIndex % chan.ads.length) "")))
    else if chan.transitions.isEmpty = false then
      ({ c with
          songsSinceAd := c.songsSinceAd + 1,
          transitionIndex := c.transitionIndex + 1,
          previousWasSong := false },
        some (Emission.transition
          (chan.transitions.getD (c.transitionIndex % chan.transitions.length) "")))
    else
      ({ c with
          songsSinceAd := c.songsSinceAd + 1,
          songIndex := (c.songIndex + 1) % chan.songs.length,
          previousWasSong := true },
        some (Emission.song (chan.songs.getD ((c.songIndex + 1) % chan.songs.length) "")))
  else
    ({ c with songIndex := (c.songIndex + 1) % chan.songs.length, previousWasSong := true },
      some (Emission.song (chan.songs.getD ((c.songIndex + 1) % chan.songs.length) "")))

/-- `RadioEngine::advanceAndChooseNextTrackLocked` (source lines 2948-2999):
look up the selected channel, then advance the cursor and choose the next
emission. -/
def advanceAndChooseNextTrack (cfg : Config) (channels : List (String × ChannelEntry))
    (selectedKey : String) (mode : PlaybackMode) (c : SeqCursor) :
    SeqCursor × Option Emission :=
  match mapFind channels selectedKey with
  | Option.none => (c, none)
  | Option.some chan => advanceStep cfg chan mode c

/-- If `advanceStep` emits anything at all, the channel's song list is
non-empty (the function returns `none` up front otherwise). -/
theorem advanceStep_emits_songs_nonempty (cfg : Config) (chan : ChannelEntry)
    (mode : PlaybackMode) (c c' : SeqCursor) (e : Emission)
    (hstep : advanceStep cfg chan mode c = (c', some e)) :
    chan.songs.isEmpty = false := by
  by_cases hempty : chan.songs.isEmpty
  · rw [advanceStep, if_pos hempty] at hstep
    simp at hstep
  · simpa using hempty

/-- If `advanceStep` emits a non-song, the station branch was taken (the
playlist guard was false) and the new cursor has `previousWasSong = false`. -/
theorem advanceStep_nonsong_shape (cfg : Config) (chan : ChannelEntry)
    (mode : PlaybackMode) (c c' : SeqCursor) (e : Emission)
    (hstep : advanceStep cfg chan mode c = (c', some e))
    (hns : e.isSong = false) :
    ¬(mode = PlaybackMode.playlist ∨ chan.type = ChannelType.playlist) ∧
      c'.previousWasSong = false := by
  rw [advanceStep] at hstep
  split_ifs at hstep <;>
    first
      | (injection hstep with h1 h2; injection h2 with h2; cases h2;
          exact Bool.noConfusion hns)
      | (refine ⟨by assumption, ?_⟩; injection hstep with h1 h2; cases h1; rfl)
      | simp at hstep

/-- If the playlist guard is false, the song list non-empty and the cursor's
`previousWasSong` false, `advanceStep` emits the next song round-robin. -/
theorem advanceStep_prev_nonsong_emits_song (cfg : Config) (chan : ChannelEntry)
    (mode : PlaybackMode) (c : SeqCursor)
    (hnpl : ¬(mode = PlaybackMode.playlist ∨ chan.type = ChannelType.playlist))
    (hne : chan.songs.isEmpty = false)
    (hprev : c.previousWasSong = false) :
    advanceStep cfg chan mode c =
      ({ c with
          songIndex := (c.songIndex + 1) % chan.songs.length,
          previousWasSong := true },
        some (Emission.song (chan.songs.getD ((c.songIndex + 1) % chan.songs.length) ""))) := by
  rw [advanceStep, if_neg (by simp [hne]), if_neg hnpl, if_neg (by simp [hprev])]

/-- C2: in Station mode, a non-song emission (an ad or a transition) from
`advanceAndChooseNextTrackLocked` is always immediately followed by a song
emission on the next call; two non-songs are never emitted back-to-back. -/
theorem nonsong_followed_by_song (cfg : Config)
    (channels : List (String × ChannelEntry)) (selectedKey : String)
    (mode : PlaybackMode) (c c₁ : SeqCursor) (e : Emission)
    (hstep : advanceAndChooseNextTrack cfg channels selectedKey mode c = (c₁, some e))
    (hns : e.isSong = false) :
    ∃ p, (advanceAndChooseNextTrack cfg channels selectedKey mode c₁).2 =
      some (Emission.song p) := by
  rcases hch : mapFind channels selectedKey with _ | chan
  · simp only [advanceAndChooseNextTrack, hch] at hstep
    simp at hstep
  · simp only [advanceAndChooseNextTrack, hch] at hstep
    obtain ⟨hnpl, hprev⟩ := advanceStep_nonsong_shape cfg chan mode c c₁ e hstep hns
    have hne := advanceStep_emits_songs_nonempty cfg chan mode c c₁ e hstep
    simp only [advanceAndChooseNextTrack, hch]
    rw [advanceStep_prev_nonsong_emits_song cfg chan mode c₁ hnpl hne hprev]
    exact ⟨_, rfl⟩

/-- A one-song, one-transition station catalog used to exercise the sequencer
theorems on concrete input. -/
def demoStationCatalog : List (String × ChannelEntry) :=
  [("station/x",
    { key := "station/x", displayName := "x", type := ChannelType.station,
      songs := ["s1"], transitions := ["t1"] })]

/-- C2 witness: a concrete station (one song, one transition) where the
transition emitted by one advance is followed by a song on the next. -/
theorem nonsong_followed_by_song_witness :
    advanceAndChooseNextTrack {} demoStationCatalog "station/x"
      PlaybackMode.station { previousWasSong := true } =
      ({ songsSinceAd := 1, transitionIndex := 1, previousWasSong := false },
        some (Emission.transition "t1")) ∧
    ∃ p, (advanceAndChooseNextTrack {} demoStationCatalog "station/x"
      PlaybackMode.station
      { songsSinceAd := 1, transitionIndex := 1, previousWasSong := false }).2 =
      some (Emission.song p) := by
  refine ⟨by decide, ?_⟩
  exact nonsong_followed_by_song {} demoStationCatalog "station/x"
    PlaybackMode.station { previousWasSong := true }
    { songsSinceAd := 1, transitionIndex := 1, previousWasSong := false }
    (Emission.transition "t1") (by decide) (by decide)

/-- C3: in Station mode with a non-empty ads list and ad interval `K > 0`,
after a song emission the songs-since-ad counter is incremented, and an ad is
emitted exactly when the incremented counter reaches `K`; the ad is
`ads[adIndex % |ads|]`, the counter resets to 0 and `previousWasSong` becomes
false; otherwise the counter simply holds the incremented value. -/
theorem ad_emitted_exactly_at_interval (cfg : Config)
    (channels : List (String × ChannelEntry)) (selectedKey : String)
    (mode : PlaybackMode) (c : SeqCursor) (chan : ChannelEntry)
    (hch : mapFind channels selectedKey = some chan)
    (hnpl : ¬(mode = PlaybackMode.playlist ∨ chan.type = ChannelType.playlist))
    (hsongs : chan.songs.isEmpty = false)
    (hads : chan.ads.isEmpty = false)
    (hK : 0 < cfg.adIntervalSongs)
    (hprev : c.previousWasSong = true)
    (hcnt : c.songsSinceAd < cfg.adIntervalSongs) :
    ((∃ p, (advanceAndChooseNextTrack cfg channels selectedKey mode c).2 =
        some (Emission.ad p)) ↔ c.songsSinceAd + 1 = cfg.adIntervalSongs) ∧
    (c.songsSinceAd + 1 = cfg.adIntervalSongs →
      advanceAndChooseNextTrack cfg channels selectedKey mode c =
        ({ c with songsSinceAd := 0, adIndex := c.adIndex + 1, previousWasSong := false },
          some (Emission.ad (chan.ads.getD (c.adIndex % chan.ads.length) "")))) ∧
    (c.songsSinceAd + 1 ≠ cfg.adIntervalSongs →
      (advanceAndChooseNextTrack cfg channels selectedKey mode c).1.songsSinceAd =
        c.songsSinceAd + 1) := by
  simp only [advanceAndChooseNextTrack, hch]
  rw [advanceStep, if_neg (by simp [hsongs]), if_neg hnpl, if_pos (by simp [hprev])]
  by_cases hdue : c.songsSinceAd + 1 = cfg.adIntervalSongs
  · rw [if_pos ⟨hads, hK, Nat.le_of_eq hdue.symm⟩]
    refine ⟨⟨fun _ => hdue, fun _ => ⟨_, rfl⟩⟩, fun _ => rfl, fun hcontra => absurd hdue hcontra⟩
  · have hnotdue : ¬(chan.ads.isEmpty = false ∧ 0 < cfg.adIntervalSongs ∧
        cfg.adIntervalSongs ≤ c.songsSinceAd + 1) := by
      rintro ⟨-, -, hle⟩
      exact hdue (by omega)
    rw [if_neg hnotdue]
    by_cases htr : chan.transitions.isEmpty = false
    · rw [if_pos htr]
      exact ⟨by simp [hdue], fun h => absurd h hdue, fun _ => rfl⟩
    · rw [if_neg htr]
      exact ⟨by simp [hdue], fun h => absurd h hdue, fun _ => rfl⟩

/-- A station catalog with two songs, one transition and one ad, used as
concrete input for the ad-interval and witness theorems. -/
def demoAdCatalog : List (String × ChannelEntry) :=
  [("station/y",
    { key := "station/y", displayName := "y", type := ChannelType.station,
      songs := ["s1", "s2"], transitions := ["t1"], ads := ["a1"] })]

/-- C3 witness: with ad interval 3 and a counter of 2 songs since the last ad,
the next advance after a song emits the ad. -/
theorem ad_emitted_exactly_at_interval_witness :
    ((∃ p, (advanceAndChooseNextTrack {} demoAdCatalog "station/y"
        PlaybackMode.station { songsSinceAd := 2, previousWasSong := true }).2 =
        some (Emission.ad p)) ↔ 2 + 1 = Config.adIntervalSongs {}) ∧
    (2 + 1 = Config.adIntervalSongs {} →
      advanceAndChooseNextTrack {} demoAdCatalog "station/y"
        PlaybackMode.station { songsSinceAd := 2, previousWasSong := true } =
        ({ songsSinceAd := 0, adIndex := 1, previousWasSong := false },
          some (Emission.ad "a1"))) ∧
    (2 + 1 ≠ Config.adIntervalSongs {} →
      (advanceAndChooseNextTrack {} demoAdCatalog "station/y"
        PlaybackMode.station { songsSinceAd := 2, previousWasSong := true }).1.songsSinceAd =
        2 + 1) :=
  ad_emitted_exactly_at_interval {} demoAdCatalog "station/y" PlaybackMode.station
    { songsSinceAd := 2, previousWasSong := true }
    { key := "station/y", displayName := "y", type := ChannelType.station,
      songs := ["s1", "s2"], transitions := ["t1"], ads := ["a1"] }
    (by decide) (by decide) (by decide) (by decide) (by decide) (by decide) (by decide)

/-- C4: in Playlist mode at the last song of an `M`-song playlist, advancing
returns song index 0 when the loop flag is set, and no track at all (the
sequencer is exhausted) when the loop flag is clear. -/
theorem playlist_wraps_or_exhausts (cfg : Config)
    (channels : List (String × ChannelEntry)) (selectedKey : String)
    (mode : PlaybackMode) (c : SeqCursor) (chan : ChannelEntry)
    (hch : mapFind channels selectedKey = some chan)
    (hpl : mode = PlaybackMode.playlist ∨ chan.type = ChannelType.playlist)
    (hne : chan.songs ≠ [])
    (hidx : c.songIndex = chan.songs.length - 1) :
    (cfg.loopPlaylist = true →
      advanceAndChooseNextTrack cfg channels selectedKey mode c =
        ({ c with songIndex := 0 }, some (Emission.song (chan.songs.getD 0 "")))) ∧
    (cfg.loopPlaylist = false →
      (advanceAndChooseNextTrack cfg channels selectedKey mode c).2 = none) := by
  have hlen : 0 < chan.songs.length := List.length_pos.mpr hne
  have hover : chan.songs.length ≤ c.songIndex + 1 := by omega
  simp only [advanceAndChooseNextTrack, hch]
  rw [advanceStep, if_neg (by simp [hne]), if_pos hpl, if_pos hover]
  constructor
  · intro hloop
    rw [if_neg (by simp [hloop])]
  · intro hloop
    rw [if_pos hloop]

/-- A two-song playlist catalog used as concrete input for the playlist
looping witness. -/
def demoPlaylistCatalog : List (String × ChannelEntry) :=
  [("playlist/p",
    { key := "playlist/p", displayName := "p", songs := ["m1", "m2"] })]

/-- C4 witness: at the last index of a two-song playlist, the advance wraps to
song index 0 with the loop flag set, and reports exhaustion with it clear. -/
theorem playlist_wraps_or_exhausts_witness :
    ((Config.loopPlaylist { loopPlaylist := true } = true →
      advanceAndChooseNextTrack { loopPlaylist := true } demoPlaylistCatalog
        "playlist/p" PlaybackMode.playlist { songIndex := 1 } =
        ({ songIndex := 0 }, some (Emission.song "m1"))) ∧
    (Config.loopPlaylist { loopPlaylist := true } = false →
      (advanceAndChooseNextTrack { loopPlaylist := true } demoPlaylistCatalog
        "playlist/p" PlaybackMode.playlist { songIndex := 1 }).2 = none)) ∧
    ((Config.loopPlaylist { loopPlaylist := false } = true →
      advanceAndChooseNextTrack { loopPlaylist := false } demoPlaylistCatalog
        "playlist/p" PlaybackMode.playlist { songIndex := 1 } =
        ({ songIndex := 0 }, some (Emission.song "m1"))) ∧
    (Config.loopPlaylist { loopPlaylist := false } = false →
      (advanceAndChooseNextTrack { loopPlaylist := false } demoPlaylistCatalog
        "playlist/p" PlaybackMode.playlist { songIndex := 1 }).2 = none)) :=
  ⟨playlist_wraps_or_exhausts { loopPlaylist := true } demoPlaylistCatalog
      "playlist/p" PlaybackMode.playlist { songIndex := 1 }
      { key := "playlist/p", displayName := "p", songs := ["m1", "m2"] }
      (by decide) (Or.inl rfl) (by decide) (by decide),
    playlist_wraps_or_exhausts { loopPlaylist := false } demoPlaylistCatalog
      "playlist/p" PlaybackMode.playlist { songIndex := 1 }
      { key := "playlist/p", displayName := "p", songs := ["m1", "m2"] }
      (by decide) (Or.inl rfl) (by decide) (by decide)⟩

/-- Insert-or-replace in the ordered channel map, mirroring
`channels_[key] = entry` on `std::map<std::string, ChannelEntry>` (entries kept
sorted ascending by key, which is the map's iteration order). -/
def mapInsert (channels : List (String × ChannelEntry)) (key : String)
    (entry : ChannelEntry) : List (String × ChannelEntry) :=
  match channels with
  | [] => [(key, entry)]
  | kv :: rest =>
    if strLt key kv.1 then (key, entry) :: kv :: rest
    else if key = kv.1 then (key, entry) :: rest
    else kv :: mapInsert rest key entry

/-- One path component: the part of the path after the last separator
(`std::filesystem::path::filename`). -/
def pathFileName (p : String) : String :=
  String.mk ((p.data.reverse.takeWhile (fun c => !(c == '/' || c == '\\'))).reverse)

/-- Index of the last occurrence of `c` in `l`, if any. -/
def lastIndexOfChar (l : List Char) (c : Char) : Option Nat :=
  match l.reverse.findIdx? (fun x => x == c) with
  | some i => some (l.length - 1 - i)
  | none => none

/-- `std::filesystem::path::stem`: the filename up to (not including) its last
dot, except that a leading dot does not start an extension. -/
def pathStem (p : String) : String :=
  let f := (pathFileName p).data
  match lastIndexOfChar f '.' with
  | some i => if i = 0 then String.mk f else String.mk (f.take i)
  | none => String.mk f

/-- `std::filesystem::path::extension`: from the filename's last dot to its
end (empty when there is no dot, or only a leading one). -/
def pathExtension (p : String) : String :=
  let f := (pathFileName p).data
  match lastIndexOfChar f '.' with
  | some i => if i = 0 then "" else String.mk (f.drop i)
  | none => ""

/-- `RadioEngine::hasAudioExtension`: the fixed local audio allow-list. -/
def hasAudioExtension (p : String) : Bool :=
  let ext := toLower (pathExtension p)
  ext == ".mp3" || ext == ".wav" || ext == ".ogg" || ext == ".flac"

/-- The per-file classification loop of `scanLibraryLocked` (source lines
1837-1860): keep allowed audio files; in a Playlist category everything is a
song; in a Station category the transition prefix is checked before the ad
prefix on the lowercased stem, and unmatched files are songs. -/
def classifyFiles (transitionPrefixLower adPrefixLower : String)
    (ctype : ChannelType) (files : List String) :
    List String × List String × List String :=
  match files with
  | [] => ([], [], [])
  | f :: rest =>
    let acc := classifyFiles transitionPrefixLower adPrefixLower ctype rest
    if !hasAudioExtension f then acc
    else if ctype = ChannelType.playlist then (f :: acc.1, acc.2.1, acc.2.2)
    else
      if transitionPrefixLower ≠ "" ∧
          strStartsWith (toLower (pathStem f)) transitionPrefixLower then
        (acc.1, f :: acc.2.1, acc.2.2)
      else if adPrefixLower ≠ "" ∧
          strStartsWith (toLower (pathStem f)) adPrefixLower then
        (acc.1, acc.2.1, f :: acc.2.2)
      else (f :: acc.1, acc.2.1, acc.2.2)

/-- Ascending insertion for the path sort used by the scan. -/
def insertPath (x : String) : List String → List String
  | [] => [x]
  | y :: ys => if strLt x y then x :: y :: ys else y :: insertPath x ys

/-- `std::sort` over a path list (deterministic ascending order). -/
def sortPaths (l : List String) : List String :=
  l.foldr insertPath []

/-- One immediate subdirectory of a category root, as the scan sees it: its
name and the regular files it holds. -/
structure SubdirListing where
  name : String
  files : List String

/-- One iteration of the subdirectory loop of `scanLibraryLocked`: classify
the files and, only when at least one song resulted, store a `ChannelEntry`
under `keyPrefix ++ "/" ++ lowercased name`. -/
def scanStep (cfg : Config) (keyPrefix : String) (ctype : ChannelType)
    (channels : List (String × ChannelEntry)) (d : SubdirListing) :
    List (String × ChannelEntry) :=
  if d.name = "" then channels
  else if (classifyFiles (toLower cfg.transitionPrefix) (toLower cfg.adPrefix)
      ctype d.files).1.isEmpty then channels
  else
    mapInsert channels (keyPrefix ++ "/" ++ toLower d.name)
      { key := keyPrefix ++ "/" ++ toLower d.name, displayName := d.name, type := ctype,
        songs := sortPaths (classifyFiles (toLower cfg.transitionPrefix)
          (toLower cfg.adPrefix) ctype d.files).1,
        transitions := sortPaths (classifyFiles (toLower cfg.transitionPrefix)
          (toLower cfg.adPrefix) ctype d.files).2.1,
        ads := sortPaths (classifyFiles (toLower cfg.transitionPrefix)
          (toLower cfg.adPrefix) ctype d.files).2.2 }

/-- The subdirectory loop of `scanLibraryLocked` for one category root. -/
def scanCategory (cfg : Config) (keyPrefix : String) (ctype : ChannelType)
    (dirs : List SubdirListing) (channels : List (String × ChannelEntry)) :
    List (String × ChannelEntry) :=
  match dirs with
  | [] => channels
  | d :: rest => scanCategory cfg keyPrefix ctype rest (scanStep cfg keyPrefix ctype channels d)

/-- `RadioEngine::addConfiguredStreamsLocked` (source lines 1920-1940): append
each configured stream station as a synthetic Station-type `isStream` entry,
recording first-seen keys in declaration order. -/
def addStreamsFrom (declared : List (String × String))
    (channels : List (String × ChannelEntry)) (orderKeys : List String) :
    List (String × ChannelEntry) × List String :=
  match declared with
  | [] => (channels, orderKeys)
  | nv :: rest =>
    if "stream/" ++ toLower (trimAscii nv.1) = "" ∨ nv.2 = "" then
      addStreamsFrom rest channels orderKeys
    else
      addStreamsFrom rest
        (mapInsert channels ("stream/" ++ toLower (trimAscii nv.1))
          { key := "stream/" ++ toLower (trimAscii nv.1), displayName := nv.1,
            type := ChannelType.station, isStream := true, streamUrl := nv.2 })
        (if orderKeys.contains ("stream/" ++ toLower (trimAscii nv.1)) then orderKeys
          else orderKeys ++ ["stream/" ++ toLower (trimAscii nv.1)])

/-- `RadioEngine::scanLibraryLocked` (source lines 1798-1918), restricted to
its catalog-building effect: rebuild the channel map from the Playlists and
Stations subdirectory listings, then append the configured stream stations
(the FX scan does not touch the catalog). -/
def scanLibrary (cfg : Config) (playlistDirs stationDirs : List SubdirListing) :
    List (String × ChannelEntry) × List String :=
  addStreamsFrom cfg.streamStations
    (scanCategory cfg "station" ChannelType.station stationDirs
      (scanCategory cfg "playlist" ChannelType.playlist playlistDirs []))
    []

/-- The candidate sort of `selectNextSource` / `changeToNextSource`
(`std::sort` by lowercased display name, source line 1231): candidates are
`(key, displayName)` pairs. -/
def insertCandidate (x : String × String) :
    List (String × String) → List (String × String)
  | [] => [x]
  | y :: ys =>
    if strLt (toLower x.2) (toLower y.2) then x :: y :: ys else y :: insertCandidate x ys

/-- Sort candidates ascending by lowercased display name. -/
def sortCandidates (l : List (String × String)) : List (String × String) :=
  l.foldr insertCandidate []

/-- The channel-selection core of `RadioEngine::selectNextSource` (source
lines 1186-1248): collect candidates for the category (map order for
categories 1 and 2, `streamOrderKeys_` lookups for category 3), sort them
alphabetically by lowercased display name, and pick the successor of the
currently selected key (wrapping; first candidate when none matches).
Returns the newly selected key, or `none` on failure. -/
def selectNextSourceKey (channels : List (String × ChannelEntry))
    (streamOrderKeys : List String) (selectedKey : String) (category : Int) :
    Option String :=
  let candidates :=
    if category = 1 ∨ category = 2 then
      channels.filterMap (fun kv =>
        if kv.2.isStream then none
        else if category = 1 ∧ kv.2.type = ChannelType.playlist then
          some (kv.1, kv.2.displayName)
        else if category = 2 ∧ kv.2.type = ChannelType.station then
          some (kv.1, kv.2.displayName)
        else none)
    else if category = 3 then
      streamOrderKeys.filterMap (fun key =>
        match mapFind channels key with
        | some entry =>
          if entry.isStream then some (key, entry.displayName) else none
        | none => none)
    else []
  if candidates.isEmpty then none
  else
    let sorted := sortCandidates candidates
    let nextIndex :=
      match sorted.findIdx? (fun cand => cand.1 == selectedKey) with
      | some i => (i + 1) % sorted.length
      | none => 0
    match mapFind channels (sorted.getD nextIndex ("", "")).1 with
    | some entry => some entry.key
    | none => none

/-- Written from the spec's words, for comparison with `selectNextSourceKey`:
category-3 cycling is said to follow the declared INI order of
`streamOrderKeys`, wrapping from the last station back to the first. -/
def specDeclaredOrderNextKey (streamOrderKeys : List String)
    (selectedKey : String) : Option String :=
  if streamOrderKeys.isEmpty then none
  else
    match streamOrderKeys.findIdx? (fun k => k == selectedKey) with
    | some i => some (streamOrderKeys.getD ((i + 1) % streamOrderKeys.length) "")
    | none => some (streamOrderKeys.getD 0 "")

/-- Lookup after insert-or-replace: the inserted key finds the new entry, any
other key is unaffected. -/
theorem mapFind_mapInsert (l : List (String × ChannelEntry)) (k : String)
    (v : ChannelEntry) (k' : String) :
    mapFind (mapInsert l k v) k' = if k' = k then some v else mapFind l k' := by
  induction l with
  | nil =>
    simp only [mapInsert, mapFind]
    by_cases h : k' = k
    · subst h
      rw [if_pos rfl]
    · rw [if_neg (fun hh => h hh.symm), if_neg h]
  | cons a rest ih =>
    rw [mapInsert]
    by_cases hlt : strLt k a.1
    · rw [if_pos hlt]
      simp only [mapFind]
      by_cases h : k' = k
      · subst h
        rw [if_pos rfl]
      · rw [if_neg (fun hh => h hh.symm), if_neg h]
    · rw [if_neg hlt]
      by_cases heq : k = a.1
      · rw [if_pos heq]
        simp only [mapFind]
        by_cases h : k' = k
        · subst h
          rw [if_pos rfl, if_pos rfl]
        · rw [if_neg (fun hh => h hh.symm), if_neg h,
            if_neg (fun hh => h (heq.trans hh).symm)]
      · rw [if_neg heq]
        simp only [mapFind]
        rw [ih]
        by_cases hak : a.1 = k'
        · have h : ¬(k' = k) := fun hh => heq (hh ▸ hak).symm
          rw [if_pos hak, if_neg h, if_pos hak]
        · rw [if_neg hak]
          by_cases h : k' = k
          · rw [if_pos h, if_pos h]
          · rw [if_neg h, if_neg h, if_neg hak]

/-- `insertPath` never produces the empty list. -/
theorem insertPath_ne_nil (x : String) (l : List String) : insertPath x l ≠ [] := by
  cases l with
  | nil => simp [insertPath]
  | cons y ys =>
    rw [insertPath]
    split_ifs <;> simp

/-- Sorting a non-empty path list yields a non-empty list. -/
theorem sortPaths_ne_nil (l : List String) (h : l ≠ []) : sortPaths l ≠ [] := by
  cases l with
  | nil => exact absurd rfl h
  | cons x xs => exact insertPath_ne_nil x (sortPaths xs)

/-- The non-stream-songs invariant survives one scan step. -/
theorem scanStep_preserves_songs (cfg : Config) (keyPrefix : String)
    (ctype : ChannelType) (channels : List (String × ChannelEntry))
    (d : SubdirListing)
    (h : ∀ k e, mapFind channels k = some e → e.isStream = false → e.songs ≠ []) :
    ∀ k e, mapFind (scanStep cfg keyPrefix ctype channels d) k = some e →
      e.isStream = false → e.songs ≠ [] := by
  intro k e hfind hstream
  rw [scanStep] at hfind
  split_ifs at hfind with hname hcls
  · exact h k e hfind hstream
  · exact h k e hfind hstream
  · rw [mapFind_mapInsert] at hfind
    split_ifs at hfind with hk
    · injection hfind with hfind
      subst hfind
      exact sortPaths_ne_nil _ (by simpa using hcls)
    · exact h k e hfind hstream

/-- The non-stream-songs invariant survives a whole category scan. -/
theorem scanCategory_preserves_songs (cfg : Config) (keyPrefix : String)
    (ctype : ChannelType) (dirs : List SubdirListing) :
    ∀ channels,
      (∀ k e, mapFind channels k = some e → e.isStream = false → e.songs ≠ []) →
      ∀ k e, mapFind (scanCategory cfg keyPrefix ctype dirs channels) k = some e →
        e.isStream = false → e.songs ≠ [] := by
  induction dirs with
  | nil => intro channels h; exact h
  | cons d rest ih =>
    intro channels h
    exact ih (scanStep cfg keyPrefix ctype channels d)
      (scanStep_preserves_songs cfg keyPrefix ctype channels d h)

/-- Appending stream stations never introduces a non-stream entry, so the
non-stream-songs invariant survives it. -/
theorem addStreamsFrom_preserves_songs (declared : List (String × String)) :
    ∀ channels orderKeys,
      (∀ k e, mapFind channels k = some e → e.isStream = false → e.songs ≠ []) →
      ∀ k e, mapFind (addStreamsFrom declared channels orderKeys).1 k = some e →
        e.isStream = false → e.songs ≠ [] := by
  induction declared with
  | nil => intro channels orderKeys h; exact h
  | cons nv rest ih =>
    intro channels orderKeys h k e
    rw [addStreamsFrom]
    split_ifs with hskip hcont <;>
      first
        | exact ih channels orderKeys h k e
        | (refine ih _ _ ?_ k e
           intro k' e' hfind hstream
           rw [mapFind_mapInsert] at hfind
           split_ifs at hfind with hk
           · injection hfind with hfind
             subst hfind
             simp at hstream
           · exact h k' e' hfind hstream)

/-- C10: after a catalog scan every non-stream `ChannelEntry` has a non-empty
song list (a subdirectory whose classified songs are empty contributes no
entry at all, as the second conjunct states for one scan step); only
`isStream` entries may carry empty song lists. -/
theorem scan_nonstream_entries_have_songs (cfg : Config)
    (playlistDirs stationDirs : List SubdirListing) :
    (∀ k e, mapFind (scanLibrary cfg playlistDirs stationDirs).1 k = some e →
      e.isStream = false → e.songs ≠ []) ∧
    (∀ (channels : List (String × ChannelEntry)) (keyPrefix : String)
        (ctype : ChannelType) (d : SubdirListing),
      (classifyFiles (toLower cfg.transitionPrefix) (toLower cfg.adPrefix)
        ctype d.files).1 = [] →
      scanStep cfg keyPrefix ctype channels d = channels) := by
  constructor
  · rw [scanLibrary]
    refine addStreamsFrom_preserves_songs cfg.streamStations _ [] ?_
    refine scanCategory_preserves_songs cfg "station" ChannelType.station stationDirs _ ?_
    refine scanCategory_preserves_songs cfg "playlist" ChannelType.playlist playlistDirs [] ?_
    intro k e hfind
    simp [mapFind] at hfind
  · intro channels keyPrefix ctype d hcls
    rw [scanStep]
    split_ifs with hname hempty
    · rfl
    · rfl
    · exact absurd (by rw [hcls]; rfl) hempty

/-- Demo playlist listing: one folder with one audio file and one ignored
non-audio file. -/
def demoPlaylistDirs : List SubdirListing :=
  [{ name := "Chill", files := ["C:/r/Playlists/Chill/a.mp3",
      "C:/r/Playlists/Chill/readme.txt"] }]

/-- Demo station listing: one folder with a song and a transition, and one
folder whose only audio file matches the ad prefix (so it yields no entry). -/
def demoStationDirs : List SubdirListing :=
  [{ name := "Rock", files := ["C:/r/Stations/Rock/transition_1.mp3",
      "C:/r/Stations/Rock/song.mp3"] },
   { name := "AdsOnly", files := ["C:/r/Stations/AdsOnly/ad_x.mp3"] }]

/-- The entry the demo scan builds for `station/rock`. -/
def demoRockEntry : ChannelEntry :=
  { key := "station/rock", displayName := "Rock", type := ChannelType.station,
    songs := ["C:/r/Stations/Rock/song.mp3"],
    transitions := ["C:/r/Stations/Rock/transition_1.mp3"] }

/-- C10 witness: on the demo listings the scanned `station/rock` entry is a
non-stream entry with a non-empty song list, and the ads-only folder
contributes no entry (its scan step is the identity). -/
theorem scan_nonstream_entries_have_songs_witness :
    mapFind (scanLibrary {} demoPlaylistDirs demoStationDirs).1 "station/rock" =
      some demoRockEntry ∧
    demoRockEntry.songs ≠ [] ∧
    scanStep {} "station" ChannelType.station []
      { name := "AdsOnly", files := ["C:/r/Stations/AdsOnly/ad_x.mp3"] } = [] :=
  ⟨by decide,
    (scan_nonstream_entries_have_songs {} demoPlaylistDirs demoStationDirs).1
      "station/rock" demoRockEntry (by decide) (by decide),
    (scan_nonstream_entries_have_songs {} demoPlaylistDirs demoStationDirs).2
      [] "station" ChannelType.station
      { name := "AdsOnly", files := ["C:/r/Stations/AdsOnly/ad_x.mp3"] } (by decide)⟩

/-- C1 (refuted by the code): `selectNextSource` gathers category-3 candidates
in declared order but then sorts all candidates alphabetically by lowercased
display name (source line 1231), so cycling follows alphabetical order, not
the declared INI order retained in `streamOrderKeys_`.  With stations declared
Alpha, Charlie, Bravo and Alpha selected, the code selects `stream/bravo`
while declared-order cycling expects `stream/charlie`. -/
theorem stream_cycle_not_declared_order :
    (scanLibrary { streamStations :=
        [("Alpha", "u1"), ("Charlie", "u2"), ("Bravo", "u3")] } [] []).2 =
      ["stream/alpha", "stream/charlie", "stream/bravo"] ∧
    selectNextSourceKey
      (scanLibrary { streamStations :=
        [("Alpha", "u1"), ("Charlie", "u2"), ("Bravo", "u3")] } [] []).1
      ["stream/alpha", "stream/charlie", "stream/bravo"] "stream/alpha" 3 =
      some "stream/bravo" ∧
    specDeclaredOrderNextKey ["stream/alpha", "stream/charlie", "stream/bravo"]
      "stream/alpha" = some "stream/charlie" := by
  decide

/-- `isHttpUrl`: the lowercased URL starts with `http://` or `https://`. -/
def isHttpUrl (url : String) : Bool :=
  strStartsWith (toLower url) "http://" || strStartsWith (toLower url) "https://"

/-- `urlExtensionLower` (source lines 94-106): trim the URL, cut at the first
`?` or `#`, and return the lowercased extension of the final path segment
(empty when the last dot sits before the last slash, or there is no dot). -/
def urlExtensionLower (url : String) : String :=
  match lastIndexOfChar
      ((trimAscii url).data.takeWhile (fun c => !(c == '?' || c == '#'))) '.' with
  | none => ""
  | some dotPos =>
    match lastIndexOfChar
        ((trimAscii url).data.takeWhile (fun c => !(c == '?' || c == '#'))) '/' with
    | some slashPos =>
      if dotPos < slashPos then ""
      else toLower (String.mk
        (((trimAscii url).data.takeWhile (fun c => !(c == '?' || c == '#'))).drop dotPos))
    | none => toLower (String.mk
        (((trimAscii url).data.takeWhile (fun c => !(c == '?' || c == '#'))).drop dotPos))

/-- `hasDirectAudioExtension` (source lines 108-112): extensions played
directly without resolving. -/
def hasDirectAudioExtension (ext : String) : Bool :=
  ext == ".mp3" || ext == ".aac" || ext == ".m4a" || ext == ".ogg" ||
    ext == ".opus" || ext == ".wav" || ext == ".flac" || ext == ".wma"

/-- `isLikelyWrapperExtension` (source lines 114-118). -/
def isLikelyWrapperExtension (ext : String) : Bool :=
  ext == ".pls" || ext == ".m3u" || ext == ".m3u8" ||
    ext == ".xspf" || ext == ".rss" || ext == ".atom" || ext == ".xml"

/-- `std::string::find(needle) != npos`. -/
def strContains (hay needle : String) : Bool :=
  hay.data.tails.any (fun suffix => List.isPrefixOf needle.data suffix)

/-- `isLikelyBinaryContent` (source lines 310-328): any NUL byte, or more than
3% control characters other than tab/newline/carriage return.  The C++ code
counts bytes; the model counts characters, which agrees on ASCII bodies. -/
def isLikelyBinaryContent (text : String) : Bool :=
  if text.data.isEmpty then false
  else if text.data.any (fun c => c.toNat == 0) then true
  else
    3 < (text.data.countP
      (fun c => c.toNat < 32 && !(c == '\n' || c == '\r' || c == '\t')) * 100) /
      text.data.length

/-- `TextUrlResponse`: the result of one resolver fetch. -/
structure TextUrlResponse where
  ok : Bool := false
  body : String := ""
  contentType : String := ""
  finalUrl : String := ""

/-- The resolver's external environment: the network fetch, the four
wrapper-format extractors (whose text grammars are out of scope and therefore
oracles here: each maps a body and a base URL to the first playable URL, empty
when none), and the sampled interrupt flag. -/
structure ResolverEnv where
  fetch : String → TextUrlResponse
  parsePLSFirstUrl : String → String → String
  parseM3UFirstUrl : String → String → String
  parseXSPFFirstUrl : String → String → String
  parseRSSAtomFirstUrl : String → String → String
  shouldAbort : Bool

/-- `kMaxResolveDepth` from the source. -/
def kMaxResolveDepth : Nat := 4

/-- PLS detection (source lines 612-614). -/
def resolverLooksLikePLS (ext lowerContentType lowerBody : String) : Bool :=
  ext == ".pls" || strContains lowerContentType "audio/x-scpls" ||
    strContains lowerBody "[playlist]"

/-- M3U detection (source lines 615-618). -/
def resolverLooksLikeM3U (ext lowerContentType lowerBody : String) : Bool :=
  ext == ".m3u" || ext == ".m3u8" || strContains lowerContentType "mpegurl" ||
    strContains lowerBody "#extm3u"

/-- XSPF detection (source lines 619-621; `&&` binds tighter than `||`). -/
def resolverLooksLikeXSPF (ext lowerContentType lowerBody : String) : Bool :=
  ext == ".xspf" || strContains lowerContentType "xspf" ||
    (strContains lowerBody "<playlist" && strContains lowerBody "xspf.org/ns/0/")

/-- RSS/Atom detection (source lines 622-627). -/
def resolverLooksLikeRSSAtom (ext lowerContentType lowerBody : String) : Bool :=
  ext == ".rss" || ext == ".atom" || ext == ".xml" ||
    strContains lowerContentType "rss" || strContains lowerContentType "atom" ||
    strContains lowerBody "<rss" || strContains lowerBody "<feed"

/-- The wrapper-extraction block of `resolvePlayableStreamUrl` (source lines
608-638), run after a successful non-binary fetch of `trimmed`: sniff the
format in priority order and extract the first playable entry against the
fetch's final URL; empty when no format matched or the parser found nothing. -/
def resolverExtract (env : ResolverEnv) (trimmed : String) : String :=
  if resolverLooksLikePLS (urlExtensionLower trimmed)
      (toLower (env.fetch trimmed).contentType) (toLower (env.fetch trimmed).body) then
    env.parsePLSFirstUrl (env.fetch trimmed).body
      (if (env.fetch trimmed).finalUrl = "" then trimmed else (env.fetch trimmed).finalUrl)
  else if resolverLooksLikeM3U (urlExtensionLower trimmed)
      (toLower (env.fetch trimmed).contentType) (toLower (env.fetch trimmed).body) then
    env.parseM3UFirstUrl (env.fetch trimmed).body
      (if (env.fetch trimmed).finalUrl = "" then trimmed else (env.fetch trimmed).finalUrl)
  else if resolverLooksLikeXSPF (urlExtensionLower trimmed)
      (toLower (env.fetch trimmed).contentType) (toLower (env.fetch trimmed).body) then
    env.parseXSPFFirstUrl (env.fetch trimmed).body
      (if (env.fetch trimmed).finalUrl = "" then trimmed else (env.fetch trimmed).finalUrl)
  else if resolverLooksLikeRSSAtom (urlExtensionLower trimmed)
      (toLower (env.fetch trimmed).contentType) (toLower (env.fetch trimmed).body) then
    env.parseRSSAtomFirstUrl (env.fetch trimmed).body
      (if (env.fetch trimmed).finalUrl = "" then trimmed else (env.fetch trimmed).finalUrl)
  else ""

/-- `resolvePlayableStreamUrl` (source lines 575-655), instrumented: the
second component counts `fetchUrlText` calls.  The recursion on `depth` is
run on structural fuel `kMaxResolveDepth + 1 - depth`; the fuel-0 case
coincides with the source's depth-exceeded early return (both yield the
input unchanged without fetching). -/
def resolveGo (env : ResolverEnv) : Nat → String → Nat → String × Nat
  | 0, inputUrl, _ => (inputUrl, 0)
  | fuel + 1, inputUrl, depth =>
    if env.shouldAbort = true then (inputUrl, 0)
    else if kMaxResolveDepth < depth then (inputUrl, 0)
    else if trimAscii inputUrl = "" ∨ isHttpUrl (trimAscii inputUrl) = false then
      (trimAscii inputUrl, 0)
    else if hasDirectAudioExtension (urlExtensionLower (trimAscii inputUrl)) = true then
      (trimAscii inputUrl, 0)
    else if (env.fetch (trimAscii inputUrl)).ok = false then (trimAscii inputUrl, 1)
    else if isLikelyBinaryContent (env.fetch (trimAscii inputUrl)).body = true then
      (trimAscii inputUrl, 1)
    else if resolverExtract env (trimAscii inputUrl) = "" then (trimAscii inputUrl, 1)
    else if toLower (resolverExtract env (trimAscii inputUrl)) =
        toLower (trimAscii inputUrl) then
      (resolverExtract env (trimAscii inputUrl), 1)
    else if isLikelyWrapperExtension
        (urlExtensionLower (resolverExtract env (trimAscii inputUrl))) = true then
      ((resolveGo env fuel (resolverExtract env (trimAscii inputUrl)) (depth + 1)).1,
        (resolveGo env fuel (resolverExtract env (trimAscii inputUrl)) (depth + 1)).2 + 1)
    else (resolverExtract env (trimAscii inputUrl), 1)

/-- The resolver's entry point: depth 0 with just enough fuel that the fuel
never runs out before the depth guard fires. -/
def resolvePlayableStreamUrl (env : ResolverEnv) (inputUrl : String) : String × Nat :=
  resolveGo env (kMaxResolveDepth + 1) inputUrl 0

/-- When no wrapper format is detected, the extraction block yields nothing. -/
theorem resolverExtract_eq_empty (env : ResolverEnv) (trimmed : String)
    (h1 : resolverLooksLikePLS (urlExtensionLower trimmed)
      (toLower (env.fetch trimmed).contentType) (toLower (env.fetch trimmed).body) = false)
    (h2 : resolverLooksLikeM3U (urlExtensionLower trimmed)
      (toLower (env.fetch trimmed).contentType) (toLower (env.fetch trimmed).body) = false)
    (h3 : resolverLooksLikeXSPF (urlExtensionLower trimmed)
      (toLower (env.fetch trimmed).contentType) (toLower (env.fetch trimmed).body) = false)
    (h4 : resolverLooksLikeRSSAtom (urlExtensionLower trimmed)
      (toLower (env.fetch trimmed).contentType) (toLower (env.fetch trimmed).body) = false) :
    resolverExtract env trimmed = "" := by
  rw [resolverExtract, if_neg (by simp [h1]), if_neg (by simp [h2]),
    if_neg (by simp [h3]), if_neg (by simp [h4])]

/-- The entry call returns the trimmed input on every failure path: failed
fetch, binary-looking body, or empty extraction. -/
theorem resolveGo_top_failure (env : ResolverEnv) (url : String)
    (habort : env.shouldAbort = false)
    (hfail : (env.fetch (trimAscii url)).ok = false ∨
      isLikelyBinaryContent (env.fetch (trimAscii url)).body = true ∨
      resolverExtract env (trimAscii url) = "") :
    (resolvePlayableStreamUrl env url).1 = trimAscii url := by
  rw [resolvePlayableStreamUrl, resolveGo, if_neg (by simp [habort]),
    if_neg (by decide)]
  by_cases hearly : trimAscii url = "" ∨ isHttpUrl (trimAscii url) = false
  · rw [if_pos hearly]
  · rw [if_neg hearly]
    by_cases hext : hasDirectAudioExtension (urlExtensionLower (trimAscii url)) = true
    · rw [if_pos hext]
    · rw [if_neg hext]
      by_cases hok : (env.fetch (trimAscii url)).ok = false
      · rw [if_pos hok]
      · rw [if_neg hok]
        by_cases hbin : isLikelyBinaryContent (env.fetch (trimAscii url)).body = true
        · rw [if_pos hbin]
        · rw [if_neg hbin]
          have hempty : resolverExtract env (trimAscii url) = "" := by
            rcases hfail with h | h | h
            · exact absurd h hok
            · exact absurd h hbin
            · exact h
          rw [if_pos hempty]

/-- Once the depth bound is exceeded the input comes back unchanged with no
fetch, with or without fuel. -/
theorem resolveGo_depth_exceeded (env : ResolverEnv) (fuel : Nat) (url : String)
    (depth : Nat) (hd : kMaxResolveDepth < depth) :
    resolveGo env fuel url depth = (url, 0) := by
  cases fuel with
  | zero => rfl
  | succ f =>
    rw [resolveGo]
    by_cases habort : env.shouldAbort = true
    · rw [if_pos habort]
    · rw [if_neg habort, if_pos hd]

/-- A URL that already carries a direct-audio extension resolves to its
trimmed self with zero fetches. -/
theorem resolveGo_direct_ext (env : ResolverEnv) (url : String)
    (habort : env.shouldAbort = false)
    (hext : hasDirectAudioExtension (urlExtensionLower (trimAscii url)) = true) :
    resolvePlayableStreamUrl env url = (trimAscii url, 0) := by
  rw [resolvePlayableStreamUrl, resolveGo, if_neg (by simp [habort]),
    if_neg (by decide)]
  by_cases hearly : trimAscii url = "" ∨ isHttpUrl (trimAscii url) = false
  · rw [if_pos hearly]
  · rw [if_neg hearly, if_pos hext]

/-- C8 (amended): on every resolution failure — fetch failure, binary-looking
body, no recognized wrapper format, recursion depth exceeded — the resolver
returns the input URL up to ASCII whitespace trimming (exactly the input on
the depth-exceeded path), and a URL whose path already ends in a direct-audio
extension comes back (trimmed) with zero network fetches. -/
theorem resolver_failure_trims_and_direct_ext_no_fetch (env : ResolverEnv)
    (url : String) :
    (env.shouldAbort = false → (env.fetch (trimAscii url)).ok = false →
      (resolvePlayableStreamUrl env url).1 = trimAscii url) ∧
    (env.shouldAbort = false →
      isLikelyBinaryContent (env.fetch (trimAscii url)).body = true →
      (resolvePlayableStreamUrl env url).1 = trimAscii url) ∧
    (env.shouldAbort = false →
      resolverLooksLikePLS (urlExtensionLower (trimAscii url))
        (toLower (env.fetch (trimAscii url)).contentType)
        (toLower (env.fetch (trimAscii url)).body) = false →
      resolverLooksLikeM3U (urlExtensionLower (trimAscii url))
        (toLower (env.fetch (trimAscii url)).contentType)
        (toLower (env.fetch (trimAscii url)).body) = false →
      resolverLooksLikeXSPF (urlExtensionLower (trimAscii url))
        (toLower (env.fetch (trimAscii url)).contentType)
        (toLower (env.fetch (trimAscii url)).body) = false →
      resolverLooksLikeRSSAtom (urlExtensionLower (trimAscii url))
        (toLower (env.fetch (trimAscii url)).contentType)
        (toLower (env.fetch (trimAscii url)).body) = false →
      (resolvePlayableStreamUrl env url).1 = trimAscii url) ∧
    (∀ fuel depth, kMaxResolveDepth < depth →
      resolveGo env fuel url depth = (url, 0)) ∧
    (env.shouldAbort = false →
      hasDirectAudioExtension (urlExtensionLower (trimAscii url)) = true →
      resolvePlayableStreamUrl env url = (trimAscii url, 0)) :=
  ⟨fun ha hok => resolveGo_top_failure env url ha (Or.inl hok),
    fun ha hbin => resolveGo_top_failure env url ha (Or.inr (Or.inl hbin)),
    fun ha h1 h2 h3 h4 => resolveGo_top_failure env url ha
      (Or.inr (Or.inr (resolverExtract_eq_empty env (trimAscii url) h1 h2 h3 h4))),
    fun fuel depth hd => resolveGo_depth_exceeded env fuel url depth hd,
    fun ha hext => resolveGo_direct_ext env url ha hext⟩

/-- A resolver environment whose every fetch fails. -/
def c8FailEnv : ResolverEnv :=
  { fetch := fun _ => {}, parsePLSFirstUrl := fun _ _ => "",
    parseM3UFirstUrl := fun _ _ => "", parseXSPFFirstUrl := fun _ _ => "",
    parseRSSAtomFirstUrl := fun _ _ => "", shouldAbort := false }

/-- C8 counterexample to the claim as stated: on a fetch failure the resolver
returns the *trimmed* input, so an input URL with trailing whitespace does not
come back unchanged. -/
theorem resolver_not_input_unchanged_counterexample :
    (resolvePlayableStreamUrl c8FailEnv "http://radio.example/live ").1 =
      "http://radio.example/live" ∧
    "http://radio.example/live" ≠ "http://radio.example/live " := by
  decide

/-- C8 witness: the amended theorem applied to the always-failing environment,
once on a wrapper-less URL (fetch failure path) and once on a direct-audio
URL (zero fetches). -/
theorem resolver_failure_trims_witness :
    ((ResolverEnv.fetch c8FailEnv (trimAscii "http://radio.example/live")).ok = false ∧
      (resolvePlayableStreamUrl c8FailEnv "http://radio.example/live").1 =
        trimAscii "http://radio.example/live") ∧
    (hasDirectAudioExtension (urlExtensionLower (trimAscii "http://radio.example/a.mp3")) = true ∧
      resolvePlayableStreamUrl c8FailEnv "http://radio.example/a.mp3" =
        (trimAscii "http://radio.example/a.mp3", 0)) :=
  ⟨⟨rfl, (resolver_failure_trims_and_direct_ext_no_fetch c8FailEnv
      "http://radio.example/live").1 rfl rfl⟩,
    ⟨by decide, (resolver_failure_trims_and_direct_ext_no_fetch c8FailEnv
      "http://radio.example/a.mp3").2.2.2.2 rfl (by decide)⟩⟩

/-- `kMinimumFadeGap` from the source. -/
def kMinimumFadeGap : Rat := 1

/-- The distance-attenuation factor of `updateFadeVolumeLocked` (source lines
3013-3022): 1 at or below the minimum distance, 0 at or above the maximum,
otherwise the squared complement of the linear interpolation fraction. -/
def fadeFactor (minDist maxDist distance : Rat) : Rat :=
  if distance ≤ minDist then 1
  else if maxDist ≤ distance then 0
  else
    (1 - (distance - minDist) / (maxDist - minDist)) *
      (1 - (distance - minDist) / (maxDist - minDist))

/-- The attenuation factor is never negative. -/
theorem fadeFactor_nonneg (mn mx d : Rat) : 0 ≤ fadeFactor mn mx d := by
  rw [fadeFactor]
  split_ifs
  · exact zero_le_one
  · exact le_refl 0
  · exact mul_self_nonneg _

/-- With a positive fade gap the attenuation factor never exceeds 1. -/
theorem fadeFactor_le_one (mn mx d : Rat) (h : mn < mx) :
    fadeFactor mn mx d ≤ 1 := by
  rw [fadeFactor]
  split_ifs with h1 h2
  · exact le_refl 1
  · exact zero_le_one
  · push_neg at h1 h2
    have hden : (0 : Rat) < mx - mn := sub_pos.mpr h
    have htpos : 0 < (d - mn) / (mx - mn) := div_pos (by linarith) hden
    have htlt : (d - mn) / (mx - mn) < 1 := (div_lt_one hden).mpr (by linarith)
    nlinarith [htpos, htlt]

/-- C6: for any fixed fade distances with `min < max`, the attenuation factor
is exactly 1 at or below the minimum, exactly 0 at or above the maximum,
equals `(1 - t)^2` for the interpolation fraction `t` strictly in between, and
is non-increasing as the distance grows from 0 to the maximum. -/
theorem fadeFactor_boundary_and_monotone (mn mx : Rat) (h : mn < mx) :
    (∀ d, d ≤ mn → fadeFactor mn mx d = 1) ∧
    (∀ d, mx ≤ d → fadeFactor mn mx d = 0) ∧
    (∀ d, mn < d → d < mx →
      fadeFactor mn mx d = (1 - (d - mn) / (mx - mn)) ^ 2) ∧
    (∀ d₁ d₂, 0 ≤ d₁ → d₁ ≤ d₂ → d₂ ≤ mx →
      fadeFactor mn mx d₂ ≤ fadeFactor mn mx d₁) := by
  refine ⟨fun d hd => by rw [fadeFactor, if_pos hd], ?_, ?_, ?_⟩
  · intro d hd
    rw [fadeFactor, if_neg (not_le.mpr (lt_of_lt_of_le h hd)), if_pos hd]
  · intro d h1 h2
    rw [fadeFactor, if_neg (not_le.mpr h1), if_neg (not_le.mpr h2)]
    ring
  · intro d₁ d₂ h0 h12 h2m
    by_cases hA2 : d₂ ≤ mn
    · have hA1 : d₁ ≤ mn := le_trans h12 hA2
      rw [fadeFactor, if_pos hA2, fadeFactor, if_pos hA1]
    · by_cases hB2 : mx ≤ d₂
      · calc fadeFactor mn mx d₂ = 0 := by rw [fadeFactor, if_neg hA2, if_pos hB2]
          _ ≤ fadeFactor mn mx d₁ := fadeFactor_nonneg mn mx d₁
      · by_cases hA1 : d₁ ≤ mn
        · calc fadeFactor mn mx d₂ ≤ 1 := fadeFactor_le_one mn mx d₂ h
            _ = fadeFactor mn mx d₁ := by rw [fadeFactor, if_pos hA1]
        · have hB1 : ¬(mx ≤ d₁) := fun hh => hB2 (le_trans hh h12)
          rw [fadeFactor, if_neg hA2, if_neg hB2, fadeFactor, if_neg hA1, if_neg hB1]
          have hden : (0 : Rat) < mx - mn := by linarith
          have ht12 : (d₁ - mn) / (mx - mn) ≤ (d₂ - mn) / (mx - mn) :=
            (div_le_div_iff_of_pos_right hden).mpr (by linarith)
          have ht2lt1 : (d₂ - mn) / (mx - mn) < 1 :=
            (div_lt_one hden).mpr (by linarith)
          have ht1pos : 0 < (d₁ - mn) / (mx - mn) := div_pos (by linarith) hden
          nlinarith [ht12, ht2lt1, ht1pos]

/-- C6 witness: the fade property pack at the concrete distances 100/300. -/
theorem fadeFactor_boundary_and_monotone_witness :
    (100 : Rat) < 300 ∧
    ((∀ d, d ≤ (100 : Rat) → fadeFactor 100 300 d = 1) ∧
     (∀ d, (300 : Rat) ≤ d → fadeFactor 100 300 d = 0) ∧
     (∀ d, (100 : Rat) < d → d < 300 →
       fadeFactor 100 300 d = (1 - (d - 100) / (300 - 100)) ^ 2) ∧
     (∀ d₁ d₂, 0 ≤ d₁ → d₁ ≤ d₂ → d₂ ≤ (300 : Rat) →
       fadeFactor 100 300 d₂ ≤ fadeFactor 100 300 d₁)) :=
  ⟨by norm_num, fadeFactor_boundary_and_monotone 100 300 (by norm_num)⟩

/-- 3D coordinates (`Position` in the header). -/
structure Position where
  x : Rat := 0
  y : Rat := 0
  z : Rat := 0
deriving DecidableEq, Repr

/-- Per-device fade override (`DeviceFadeOverride` in the header). -/
structure DeviceFadeOverride where
  enabled : Bool := false
  minDistance : Rat := 0
  maxDistance : Rat := 0
  panDistance : Rat := 0
deriving DecidableEq, Repr

/-- `DeviceState`: one device's durable snapshot.  `trackStartTime_` is a
wall-clock timestamp read from the OS and is omitted from the model; its
validity flag `trackStartValid` is kept. -/
structure DeviceState where
  selectedKey : String := ""
  mode : PlaybackMode := PlaybackMode.none
  state : PlaybackState := PlaybackState.stopped
  currentTrackPath : String := ""
  songIndex : Nat := 0
  transitionIndex : Nat := 0
  adIndex : Nat := 0
  songsSinceAd : Nat := 0
  previousWasSong : Bool := false
  emitterPosition : Position := {}
  playerPosition : Position := {}
  lastVolume : Int := -1
  lastLeftVolume : Int := -1
  lastRightVolume : Int := -1
  panControlsAvailable : Bool := true
  panUnavailableLogged : Bool := false
  trackStartValid : Bool := false
  fadeOverride : DeviceFadeOverride := {}
  volumeGain : Rat := 1
deriving DecidableEq, Repr

/-- The engine's live mirror fields (`selectedKey_`, `mode_`, `state_`, ...):
exactly the `DeviceState` fields that are promoted into members on a device
switch.  `fadeOverride` and `volumeGain` are *not* mirrored — the engine reads
them from the device map directly. -/
structure LiveState where
  selectedKey : String := ""
  mode : PlaybackMode := PlaybackMode.none
  state : PlaybackState := PlaybackState.stopped
  currentTrackPath : String := ""
  songIndex : Nat := 0
  transitionIndex : Nat := 0
  adIndex : Nat := 0
  songsSinceAd : Nat := 0
  previousWasSong : Bool := false
  emitterPosition : Position := {}
  playerPosition : Position := {}
  lastVolume : Int := -1
  lastLeftVolume : Int := -1
  lastRightVolume : Int := -1
  panControlsAvailable : Bool := true
  panUnavailableLogged : Bool := false
  trackStartValid : Bool := false
deriving DecidableEq, Repr

/-- The modelled engine state: configuration, catalog, device map, the id of
the device currently bound to the live backend, the live mirror fields, and
the live backend tag. -/
structure EngineState where
  config : Config := {}
  channels : List (String × ChannelEntry) := []
  streamOrderKeys : List String := []
  deviceStates : Nat → Option DeviceState := fun _ => none
  currentDeviceId : Nat := 0
  live : LiveState := {}
  backend : PlaybackBackend := PlaybackBackend.none

/-- Point update of the device map (`deviceStates_[id] = d`). -/
def updateDeviceEntry (ds : Nat → Option DeviceState) (id : Nat) (d : DeviceState) :
    Nat → Option DeviceState :=
  fun x => if x = id then some d else ds x

/-- `RadioEngine::ensureDeviceStateLocked` (source lines 3273-3286): return
the existing entry, or create a default one (override disabled, unit gain). -/
def ensureDeviceState (ds : Nat → Option DeviceState) (id : Nat) :
    DeviceState × (Nat → Option DeviceState) :=
  match ds id with
  | some d => (d, ds)
  | none => ({}, updateDeviceEntry ds id {})

/-- `RadioEngine::makeCurrentDeviceStateLocked` (source lines 3216-3244): a
snapshot built from the live mirror fields, with `fadeOverride`/`volumeGain`
taken from the stored entry when one exists (defaults otherwise). -/
def makeCurrentDeviceState (e : EngineState) : DeviceState :=
  { selectedKey := e.live.selectedKey, mode := e.live.mode, state := e.live.state,
    currentTrackPath := e.live.currentTrackPath, songIndex := e.live.songIndex,
    transitionIndex := e.live.transitionIndex, adIndex := e.live.adIndex,
    songsSinceAd := e.live.songsSinceAd, previousWasSong := e.live.previousWasSong,
    emitterPosition := e.live.emitterPosition, playerPosition := e.live.playerPosition,
    lastVolume := e.live.lastVolume, lastLeftVolume := e.live.lastLeftVolume,
    lastRightVolume := e.live.lastRightVolume,
    panControlsAvailable := e.live.panControlsAvailable,
    panUnavailableLogged := e.live.panUnavailableLogged,
    trackStartValid := e.live.trackStartValid,
    fadeOverride :=
      match e.deviceStates e.currentDeviceId with
      | some d => d.fadeOverride
      | none => {},
    volumeGain :=
      match e.deviceStates e.currentDeviceId with
      | some d => d.volumeGain
      | none => 1 }

/-- `RadioEngine::applyDeviceStateLocked` (source lines 3246-3266) as a pure
projection: the live mirror fields a snapshot loads. -/
def liveFromSnapshot (d : DeviceState) : LiveState :=
  { selectedKey := d.selectedKey, mode := d.mode, state := d.state,
    currentTrackPath := d.currentTrackPath, songIndex := d.songIndex,
    transitionIndex := d.transitionIndex, adIndex := d.adIndex,
    songsSinceAd := d.songsSinceAd, previousWasSong := d.previousWasSong,
    emitterPosition := d.emitterPosition, playerPosition := d.playerPosition,
    lastVolume := d.lastVolume, lastLeftVolume := d.lastLeftVolume,
    lastRightVolume := d.lastRightVolume,
    panControlsAvailable := d.panControlsAvailable,
    panUnavailableLogged := d.panUnavailableLogged,
    trackStartValid := d.trackStartValid }

/-- `RadioEngine::syncCurrentDeviceStateLocked` (source lines 3268-3271). -/
def syncCurrentDeviceState (e : EngineState) : EngineState :=
  { e with deviceStates :=
      updateDeviceEntry e.deviceStates e.currentDeviceId (makeCurrentDeviceState e) }

/-- `stopPlaybackDeviceLocked(true)` restricted to its modelled state: the OS
handle teardown is external; the effect on the engine state is clearing the
backend tag (source line 2627). -/
def stopPlaybackDevice (e : EngineState) : EngineState :=
  { e with backend := PlaybackBackend.none }

/-- The load phase of `RadioEngine::switchToDeviceLocked` (source lines
3304-3312): make the target current, ensure its entry, apply its snapshot to
the live mirror, and force the loaded state to Stopped (with the start-time
flag cleared) pending an explicit play/start. -/
def loadDeviceState (e : EngineState) (deviceId : Nat) : EngineState :=
  if (liveFromSnapshot (ensureDeviceState e.deviceStates deviceId).1).state ≠
      PlaybackState.stopped then
    { e with
      currentDeviceId := deviceId
      deviceStates := (ensureDeviceState e.deviceStates deviceId).2
      live :=
        { liveFromSnapshot (ensureDeviceState e.deviceStates deviceId).1 with
          state := PlaybackState.stopped
          trackStartValid := false } }
  else
    { e with
      currentDeviceId := deviceId
      deviceStates := (ensureDeviceState e.deviceStates deviceId).2
      live := liveFromSnapshot (ensureDeviceState e.deviceStates deviceId).1 }

/-- `RadioEngine::switchToDeviceLocked` (source lines 3288-3313): persist the
current device's snapshot; when the current mirror state is live
(Playing/Paused) stop the OS playback, force the mirror to Stopped and
persist that; then load the target's snapshot.  (The source tests the mirror
`state_` after the first `syncCurrentDeviceStateLocked()`, which does not
change `state_`; the test is written on `e.live.state` directly here.) -/
def switchToDevice (e : EngineState) (deviceId : Nat) : EngineState :=
  if deviceId = e.currentDeviceId then
    { e with deviceStates := (ensureDeviceState e.deviceStates deviceId).2 }
  else if e.live.state = PlaybackState.playing ∨ e.live.state = PlaybackState.paused then
    loadDeviceState
      (syncCurrentDeviceState
        { stopPlaybackDevice (syncCurrentDeviceState e) with
          live :=
            { (syncCurrentDeviceState e).live with
              state := PlaybackState.stopped
              trackStartValid := false } })
      deviceId
  else
    loadDeviceState (syncCurrentDeviceState e) deviceId

/-- `std::clamp` on rationals. -/
def clampQ (v lo hi : Rat) : Rat :=
  min (max v lo) hi

/-- `std::lround`: round half away from zero. -/
def lroundQ (q : Rat) : Int :=
  if 0 ≤ q then Int.floor (q + 1 / 2) else -Int.floor (-q + 1 / 2)

/-- The backend-interaction results `updateFadeVolumeLocked` consumes, plus
the two quantities computed with floating-point functions the model does not
reproduce: the Euclidean `distance` (floating square root) and the rounded
equal-power pan levels (floating cosine/sine). -/
structure FadeIO where
  distance : Rat := 0
  panLeftVolume : Int := 0
  panRightVolume : Int := 0
  mfPlayerAvailable : Bool := true
  mfSetVolumeOk : Bool := true
  dsAudioAvailable : Bool := true
  dsPutVolumeOk : Bool := true
  mciLeftOk : Bool := true
  mciRightOk : Bool := true
  mciScalarOk : Bool := true

/-- The level computation and application of `updateFadeVolumeLocked` (source
lines 3008-3119), as its effect on the live mirror fields given the ensured
current device entry `dev`: compute the attenuation, clamp with the device
gain to the integer level range [0, 1000], suppress redundant identical level
triples, and apply through the backend recorded for the session — recording
the applied levels only when the backend call succeeded; a failed MCI pan pair
disables pan permanently for the session and falls back to scalar volume. -/
def fadeAdjustedLive (io : FadeIO) (e : EngineState) (dev : DeviceState) : LiveState :=
  let minDist := if dev.fadeOverride.enabled then dev.fadeOverride.minDistance
    else e.config.minFadeDistance
  let maxDist := if dev.fadeOverride.enabled then dev.fadeOverride.maxDistance
    else e.config.maxFadeDistance
  let panDist := if dev.fadeOverride.enabled then dev.fadeOverride.panDistance
    else e.config.panDistance
  let volume : Int :=
    lroundQ (clampQ (fadeFactor minDist maxDist io.distance * clampQ dev.volumeGain 0 2) 0 1 * 1000)
  let usePan := e.config.enableSpatialPan = true ∧ kMinimumFadeGap < panDist
  let leftVolume : Int := if usePan then io.panLeftVolume else volume
  let rightVolume : Int := if usePan then io.panRightVolume else volume
  if volume = e.live.lastVolume ∧ leftVolume = e.live.lastLeftVolume ∧
      rightVolume = e.live.lastRightVolume then e.live
  else if e.backend = PlaybackBackend.mediaFoundationStream then
    if io.mfPlayerAvailable = false then e.live
    else if io.mfSetVolumeOk = false then e.live
    else
      { e.live with
        lastVolume := volume
        lastLeftVolume := volume
        lastRightVolume := volume }
  else if e.backend = PlaybackBackend.directShowStream then
    if io.dsAudioAvailable = false then
      { e.live with
        lastVolume := volume
        lastLeftVolume := volume
        lastRightVolume := volume }
    else if io.dsPutVolumeOk = false then e.live
    else
      { e.live with
        lastVolume := volume
        lastLeftVolume := volume
        lastRightVolume := volume }
  else if e.config.enableSpatialPan = true ∧ e.live.panControlsAvailable = true then
    if io.mciLeftOk && io.mciRightOk then
      { e.live with
        lastVolume := volume
        lastLeftVolume := leftVolume
        lastRightVolume := rightVolume }
    else if io.mciScalarOk then
      { e.live with
        panControlsAvailable := false
        panUnavailableLogged := true
        lastVolume := volume
        lastLeftVolume := volume
        lastRightVolume := volume }
    else
      { e.live with
        panControlsAvailable := false
        panUnavailableLogged := true }
  else if io.mciScalarOk then
    { e.live with
      lastVolume := volume
      lastLeftVolume := volume
      lastRightVolume := volume }
  else e.live

/-- `RadioEngine::updateFadeVolumeLocked` (source lines 3001-3120): no-op
unless Playing; otherwise ensure the current device entry exists and rewrite
the live last-level fields through `fadeAdjustedLive`. -/
def updateFadeVolume (io : FadeIO) (e : EngineState) : EngineState :=
  if e.live.state ≠ PlaybackState.playing then e
  else
    { e with
      deviceStates := (ensureDeviceState e.deviceStates e.currentDeviceId).2,
      live := fadeAdjustedLive io e (ensureDeviceState e.deviceStates e.currentDeviceId).1 }

/-- The command body of `RadioEngine::setVolume` (source lines 1361-1369):
clamp the percentage to [0, 200], store the gain on the current device, and
reapply the fade levels. -/
def setVolumeCmd (v : Rat) (io : FadeIO) (e : EngineState) : EngineState × Bool :=
  (updateFadeVolume io
    { e with
      deviceStates :=
        updateDeviceEntry (ensureDeviceState e.deviceStates e.currentDeviceId).2
          e.currentDeviceId
          { (ensureDeviceState e.deviceStates e.currentDeviceId).1 with
            volumeGain := clampQ v 0 200 / 100 } },
    true)

/-- The command body of `RadioEngine::setFadeParams` (source lines 1292-1315):
any negative parameter disables the per-device override entirely; otherwise
all three are stored, with the maximum and pan distances held at least
`kMinimumFadeGap` apart from the minimum. -/
def setFadeParamsCmd (mn mx pan : Rat) (io : FadeIO) (e : EngineState) :
    EngineState × Bool :=
  if mn < 0 ∨ mx < 0 ∨ pan < 0 then
    (updateFadeVolume io
      { e with
        deviceStates :=
          updateDeviceEntry (ensureDeviceState e.deviceStates e.currentDeviceId).2
            e.currentDeviceId
            { (ensureDeviceState e.deviceStates e.currentDeviceId).1 with
              fadeOverride :=
                { (ensureDeviceState e.deviceStates e.currentDeviceId).1.fadeOverride with
                  enabled := false } } },
      true)
  else
    (updateFadeVolume io
      { e with
        deviceStates :=
          updateDeviceEntry (ensureDeviceState e.deviceStates e.currentDeviceId).2
            e.currentDeviceId
            { (ensureDeviceState e.deviceStates e.currentDeviceId).1 with
              fadeOverride :=
                { enabled := true, minDistance := mn,
                  maxDistance := max mx (mn + kMinimumFadeGap),
                  panDistance := max pan kMinimumFadeGap } } },
      true)

/-- The inline execution path of `RadioEngine::runBoolCommandForDevice`
(source lines 3368-3382, taken when the worker is not running or the caller
is the worker itself; the queued path runs the identical sequence on the
worker): switch to the device, run the command body, persist the snapshot,
return the command's boolean. -/
def runBoolCommandInline (deviceId : Nat) (cmd : EngineState → EngineState × Bool)
    (e : EngineState) : EngineState × Bool :=
  (syncCurrentDeviceState (cmd (switchToDevice e deviceId)).1,
    (cmd (switchToDevice e deviceId)).2)

/-- `RadioEngine::isPlaying` (source lines 1080-1092). -/
def isPlayingObs (e : EngineState) (deviceId : Nat) : Bool :=
  if deviceId = e.currentDeviceId then e.live.state == PlaybackState.playing
  else
    match e.deviceStates deviceId with
    | some d => d.state == PlaybackState.playing
    | none => false

/-- `RadioEngine::getVolume` (source lines 1348-1357). -/
def getVolumeObs (e : EngineState) (deviceId : Nat) : Rat :=
  match e.deviceStates deviceId with
  | some d => clampQ (d.volumeGain * 100) 0 200
  | none => 100

/-- The display-name lookup shared by `currentSourceName`. -/
def sourceNameForKey (channels : List (String × ChannelEntry)) (key : String) :
    String :=
  if key = "" then ""
  else
    match mapFind channels key with
    | some entry => entry.displayName
    | none => ""

/-- `RadioEngine::currentSourceName` (source lines 1564-1584). -/
def currentSourceNameObs (e : EngineState) (deviceId : Nat) : String :=
  sourceNameForKey e.channels
    (if deviceId = e.currentDeviceId then e.live.selectedKey
      else
        match e.deviceStates deviceId with
        | some d => d.selectedKey
        | none => "")

/-- The effective fade parameters `updateFadeVolumeLocked` reads (source lines
3009-3011): the device override when enabled, the global configuration
otherwise. -/
def effectiveFadeParams (cfg : Config) (d : DeviceState) : Rat × Rat × Rat :=
  (if d.fadeOverride.enabled then d.fadeOverride.minDistance else cfg.minFadeDistance,
    if d.fadeOverride.enabled then d.fadeOverride.maxDistance else cfg.maxFadeDistance,
    if d.fadeOverride.enabled then d.fadeOverride.panDistance else cfg.panDistance)

/-- Updating an entry stores it. -/
theorem updateDeviceEntry_self (ds : Nat → Option DeviceState) (id : Nat)
    (d : DeviceState) : updateDeviceEntry ds id d id = some d :=
  if_pos rfl

/-- Updating an entry leaves every other id alone. -/
theorem updateDeviceEntry_other (ds : Nat → Option DeviceState) (id : Nat)
    (d : DeviceState) (x : Nat) (h : x ≠ id) : updateDeviceEntry ds id d x = ds x :=
  if_neg h

/-- Two updates at the same id collapse to the last one. -/
theorem updateDeviceEntry_twice (ds : Nat → Option DeviceState) (id : Nat)
    (a b : DeviceState) :
    updateDeviceEntry (updateDeviceEntry ds id a) id b = updateDeviceEntry ds id b := by
  funext x
  simp only [updateDeviceEntry]
  by_cases h : x = id
  · simp [h]
  · simp [h]

/-- `ensureDeviceStateLocked` on a present id returns it unchanged. -/
theorem ensureDeviceState_of_some (ds : Nat → Option DeviceState) (id : Nat)
    (d : DeviceState) (h : ds id = some d) : ensureDeviceState ds id = (d, ds) := by
  rw [ensureDeviceState, h]

/-- `ensureDeviceStateLocked` on an absent id inserts the default state. -/
theorem ensureDeviceState_of_none (ds : Nat → Option DeviceState) (id : Nat)
    (h : ds id = none) : ensureDeviceState ds id = ({}, updateDeviceEntry ds id {}) := by
  rw [ensureDeviceState, h]

/-- `ensureDeviceStateLocked` never changes another id's entry. -/
theorem ensureDeviceState_snd_other (ds : Nat → Option DeviceState) (id x : Nat)
    (h : x ≠ id) : (ensureDeviceState ds id).2 x = ds x := by
  cases hh : ds id with
  | some d => rw [ensureDeviceState_of_some ds id d hh]
  | none =>
    rw [ensureDeviceState_of_none ds id hh]
    exact updateDeviceEntry_other ds id {} x h

/-- After `ensureDeviceStateLocked` the id's entry holds the returned state. -/
theorem ensureDeviceState_snd_self (ds : Nat → Option DeviceState) (id : Nat) :
    (ensureDeviceState ds id).2 id = some (ensureDeviceState ds id).1 := by
  cases hh : ds id with
  | some d => rw [ensureDeviceState_of_some ds id d hh]; exact hh
  | none =>
    rw [ensureDeviceState_of_none ds id hh]
    exact updateDeviceEntry_self ds id {}

/-- `updateFadeVolumeLocked` is a no-op unless the live state is Playing. -/
theorem updateFadeVolume_not_playing (io : FadeIO) (e : EngineState)
    (h : e.live.state ≠ PlaybackState.playing) : updateFadeVolume io e = e := by
  rw [updateFadeVolume, if_pos h]

set_option maxHeartbeats 2000000 in
/-- The fade application never rewrites the live selection or playback
state fields. -/
theorem fadeAdjustedLive_frame (io : FadeIO) (e : EngineState) (dev : DeviceState) :
    (fadeAdjustedLive io e dev).selectedKey = e.live.selectedKey ∧
    (fadeAdjustedLive io e dev).state = e.live.state := by
  rw [fadeAdjustedLive]
  split <;> try exact ⟨rfl, rfl⟩
  split <;> try exact ⟨rfl, rfl⟩
  all_goals split <;> try exact ⟨rfl, rfl⟩
  all_goals split <;> try exact ⟨rfl, rfl⟩
  all_goals split <;> try exact ⟨rfl, rfl⟩
  all_goals split <;> try exact ⟨rfl, rfl⟩
  all_goals split <;> try exact ⟨rfl, rfl⟩
  all_goals split <;> try exact ⟨rfl, rfl⟩
  all_goals split <;> try exact ⟨rfl, rfl⟩

/-- `updateFadeVolumeLocked` never touches another device's stored entry. -/
theorem updateFadeVolume_deviceStates_other (io : FadeIO) (e : EngineState)
    (x : Nat) (h : x ≠ e.currentDeviceId) :
    (updateFadeVolume io e).deviceStates x = e.deviceStates x := by
  rw [updateFadeVolume]
  by_cases hp : e.live.state ≠ PlaybackState.playing
  · rw [if_pos hp]
  · rw [if_neg hp]
    exact ensureDeviceState_snd_other e.deviceStates e.currentDeviceId x h

/-- When the current device already has an entry, `updateFadeVolumeLocked`
leaves the whole device map unchanged. -/
theorem updateFadeVolume_deviceStates_of_some (io : FadeIO) (e : EngineState)
    (d : DeviceState) (h : e.deviceStates e.currentDeviceId = some d) :
    (updateFadeVolume io e).deviceStates = e.deviceStates := by
  rw [updateFadeVolume]
  by_cases hp : e.live.state ≠ PlaybackState.playing
  · rw [if_pos hp]
  · rw [if_neg hp, ensureDeviceState_of_some e.deviceStates e.currentDeviceId d h]

/-- `updateFadeVolumeLocked` changes neither the current device id, nor the
catalog, nor the configuration, nor the live selection and playback state. -/
theorem updateFadeVolume_frame (io : FadeIO) (e : EngineState) :
    (updateFadeVolume io e).currentDeviceId = e.currentDeviceId ∧
    (updateFadeVolume io e).channels = e.channels ∧
    (updateFadeVolume io e).config = e.config ∧
    (updateFadeVolume io e).live.selectedKey = e.live.selectedKey ∧
    (updateFadeVolume io e).live.state = e.live.state := by
  rw [updateFadeVolume]
  by_cases hp : e.live.state ≠ PlaybackState.playing
  · rw [if_pos hp]
    exact ⟨rfl, rfl, rfl, rfl, rfl⟩
  · rw [if_neg hp]
    exact ⟨rfl, rfl, rfl,
      (fadeAdjustedLive_frame io e (ensureDeviceState e.deviceStates e.currentDeviceId).1).1,
      (fadeAdjustedLive_frame io e (ensureDeviceState e.deviceStates e.currentDeviceId).1).2⟩

/-- The load phase makes the requested device current. -/
theorem loadDeviceState_currentDeviceId (s : EngineState) (D : Nat) :
    (loadDeviceState s D).currentDeviceId = D := by
  rw [loadDeviceState]
  split <;> rfl

/-- The load phase changes neither the catalog nor the configuration. -/
theorem loadDeviceState_channels_config (s : EngineState) (D : Nat) :
    (loadDeviceState s D).channels = s.channels ∧
    (loadDeviceState s D).config = s.config := by
  rw [loadDeviceState]
  split <;> exact ⟨rfl, rfl⟩

/-- The loaded state is always forced to Stopped. -/
theorem loadDeviceState_live_state (s : EngineState) (D : Nat) :
    (loadDeviceState s D).live.state = PlaybackState.stopped := by
  rw [loadDeviceState]
  split
  · rfl
  next hne => exact not_ne_iff.mp hne

/-- The load phase's device map is the ensured one. -/
theorem loadDeviceState_deviceStates (s : EngineState) (D : Nat) :
    (loadDeviceState s D).deviceStates = (ensureDeviceState s.deviceStates D).2 := by
  rw [loadDeviceState]
  split <;> rfl

/-- Loading a device with a stored snapshot applies that snapshot to the live
mirror, with a non-Stopped stored state forced to Stopped. -/
theorem loadDeviceState_live_of_some (s : EngineState) (D : Nat) (d : DeviceState)
    (hd : s.deviceStates D = some d) :
    (loadDeviceState s D).live =
      if d.state ≠ PlaybackState.stopped then
        { liveFromSnapshot d with
          state := PlaybackState.stopped, trackStartValid := false }
      else liveFromSnapshot d := by
  rw [loadDeviceState, ensureDeviceState_of_some s.deviceStates D d hd]
  dsimp only [liveFromSnapshot]
  by_cases hst : d.state = PlaybackState.stopped
  · rw [if_neg (not_ne_iff.mpr hst), if_neg (not_ne_iff.mpr hst)]
  · rw [if_pos hst, if_pos hst]

/-- Switching to a different device makes it current. -/
theorem switchToDevice_ne_currentDeviceId (e : EngineState) (A : Nat)
    (h : ¬(A = e.currentDeviceId)) : (switchToDevice e A).currentDeviceId = A := by
  rw [switchToDevice, if_neg h]
  split <;> exact loadDeviceState_currentDeviceId _ _

/-- Switching devices changes neither the catalog nor the configuration. -/
theorem switchToDevice_channels_config (e : EngineState) (A : Nat) :
    (switchToDevice e A).channels = e.channels ∧
    (switchToDevice e A).config = e.config := by
  rw [switchToDevice]
  split_ifs with h1 h2
  · exact ⟨rfl, rfl⟩
  · exact loadDeviceState_channels_config _ _
  · exact loadDeviceState_channels_config _ _

/-- After switching to a different device the loaded state is forced to
Stopped, pending an explicit play/start. -/
theorem switchToDevice_ne_live_state (e : EngineState) (A : Nat)
    (h : ¬(A = e.currentDeviceId)) :
    (switchToDevice e A).live.state = PlaybackState.stopped := by
  rw [switchToDevice, if_neg h]
  split <;> exact loadDeviceState_live_state _ _

/-- Switching away persists the superseded device's snapshot: forced to
Stopped (with the start-time flag cleared) when it was live, verbatim
otherwise. -/
theorem switchToDevice_ne_ds_current (e : EngineState) (A : Nat)
    (h : ¬(A = e.currentDeviceId)) :
    (switchToDevice e A).deviceStates e.currentDeviceId =
      some (if e.live.state = PlaybackState.playing ∨ e.live.state = PlaybackState.paused
        then { makeCurrentDeviceState e with
                state := PlaybackState.stopped, trackStartValid := false }
        else makeCurrentDeviceState e) := by
  have hc : e.currentDeviceId ≠ A := fun hh => h hh.symm
  rw [switchToDevice, if_neg h]
  by_cases hplay : e.live.state = PlaybackState.playing ∨ e.live.state = PlaybackState.paused
  · rw [if_pos hplay, loadDeviceState_deviceStates,
      ensureDeviceState_snd_other _ A e.currentDeviceId hc]
    dsimp only [syncCurrentDeviceState, stopPlaybackDevice]
    rw [updateDeviceEntry_twice, updateDeviceEntry_self, if_pos hplay]
    simp [makeCurrentDeviceState, updateDeviceEntry_self]
  · rw [if_neg hplay, loadDeviceState_deviceStates,
      ensureDeviceState_snd_other _ A e.currentDeviceId hc]
    dsimp only [syncCurrentDeviceState]
    rw [updateDeviceEntry_self, if_neg hplay]

/-- Switching devices touches no third device's stored entry. -/
theorem switchToDevice_ne_ds_other (e : EngineState) (A x : Nat)
    (h : ¬(A = e.currentDeviceId)) (hxA : x ≠ A) (hxc : x ≠ e.currentDeviceId) :
    (switchToDevice e A).deviceStates x = e.deviceStates x := by
  rw [switchToDevice, if_neg h]
  by_cases hplay : e.live.state = PlaybackState.playing ∨ e.live.state = PlaybackState.paused
  · rw [if_pos hplay, loadDeviceState_deviceStates,
      ensureDeviceState_snd_other _ A x hxA]
    dsimp only [syncCurrentDeviceState, stopPlaybackDevice]
    rw [updateDeviceEntry_twice, updateDeviceEntry_other _ _ _ _ hxc]
  · rw [if_neg hplay, loadDeviceState_deviceStates,
      ensureDeviceState_snd_other _ A x hxA]
    dsimp only [syncCurrentDeviceState]
    rw [updateDeviceEntry_other _ _ _ _ hxc]

/-- Switching to a different device whose snapshot is stored loads that
snapshot into the live mirror (forced to Stopped when it was not). -/
theorem switchToDevice_ne_live_of_some (e : EngineState) (A : Nat)
    (h : ¬(A = e.currentDeviceId)) (d : DeviceState)
    (hd : e.deviceStates A = some d) :
    (switchToDevice e A).live =
      if d.state ≠ PlaybackState.stopped then
        { liveFromSnapshot d with
          state := PlaybackState.stopped, trackStartValid := false }
      else liveFromSnapshot d := by
  rw [switchToDevice, if_neg h]
  by_cases hplay : e.live.state = PlaybackState.playing ∨ e.live.state = PlaybackState.paused
  · rw [if_pos hplay]
    refine loadDeviceState_live_of_some _ A d ?_
    dsimp only [syncCurrentDeviceState, stopPlaybackDevice]
    rw [updateDeviceEntry_other _ _ _ _ h, updateDeviceEntry_other _ _ _ _ h]
    exact hd
  · rw [if_neg hplay]
    refine loadDeviceState_live_of_some _ A d ?_
    dsimp only [syncCurrentDeviceState]
    rw [updateDeviceEntry_other _ _ _ _ h]
    exact hd

/-- Switching always leaves the requested device current. -/
theorem switchToDevice_currentDeviceId_eq (e : EngineState) (D : Nat) :
    (switchToDevice e D).currentDeviceId = D := by
  by_cases h : D = e.currentDeviceId
  · rw [switchToDevice, if_pos h]
    exact h.symm
  · exact switchToDevice_ne_currentDeviceId e D h

/-- The snapshot builder copies the stored entry's fade override and gain. -/
theorem makeCurrent_fade_gain (e : EngineState) (d : DeviceState)
    (h : e.deviceStates e.currentDeviceId = some d) :
    (makeCurrentDeviceState e).fadeOverride = d.fadeOverride ∧
    (makeCurrentDeviceState e).volumeGain = d.volumeGain := by
  simp [makeCurrentDeviceState, h]

/-- The core of C7 on an arbitrary post-switch state: the negative-parameter
branch of `setFadeParams` reports success and leaves the current device's
stored entry with its override disabled, so all three effective fade
parameters come from the global configuration. -/
theorem setFadeParams_negative_resets_core (s : EngineState) (mn mx pan : Rat)
    (io : FadeIO) (hneg : mn < 0 ∨ mx < 0 ∨ pan < 0) :
    (setFadeParamsCmd mn mx pan io s).2 = true ∧
    ∃ d, (syncCurrentDeviceState (setFadeParamsCmd mn mx pan io s).1).deviceStates
        s.currentDeviceId = some d ∧
      d.fadeOverride.enabled = false ∧
      effectiveFadeParams s.config d =
        (s.config.minFadeDistance, s.config.maxFadeDistance, s.config.panDistance) := by
  rw [setFadeParamsCmd, if_pos hneg]
  refine ⟨rfl, ?_⟩
  set devD : DeviceState :=
    { (ensureDeviceState s.deviceStates s.currentDeviceId).1 with
      fadeOverride :=
        { (ensureDeviceState s.deviceStates s.currentDeviceId).1.fadeOverride with
          enabled := false } } with hdev
  set S1 : EngineState :=
    { s with
      deviceStates :=
        updateDeviceEntry (ensureDeviceState s.deviceStates s.currentDeviceId).2
          s.currentDeviceId devD } with hS1
  have henabled : devD.fadeOverride.enabled = false := by rw [hdev]
  have hpresent : S1.deviceStates S1.currentDeviceId = some devD :=
    updateDeviceEntry_self (ensureDeviceState s.deviceStates s.currentDeviceId).2
      s.currentDeviceId devD
  have hds := updateFadeVolume_deviceStates_of_some io S1 devD hpresent
  have hfr := updateFadeVolume_frame io S1
  have hufpresent : (updateFadeVolume io S1).deviceStates
      (updateFadeVolume io S1).currentDeviceId = some devD := by
    rw [hds, hfr.1]
    exact hpresent
  obtain ⟨hfo, -⟩ := makeCurrent_fade_gain (updateFadeVolume io S1) devD hufpresent
  refine ⟨makeCurrentDeviceState (updateFadeVolume io S1), ?_, ?_, ?_⟩
  · rw [syncCurrentDeviceState]
    have hcur : (updateFadeVolume io S1).currentDeviceId = s.currentDeviceId := hfr.1
    dsimp only
    rw [hcur]
    exact updateDeviceEntry_self _ _ _
  · rw [hfo]
  · rw [effectiveFadeParams, hfo, henabled]
    simp

/-- C7: for every device, calling `setFadeParams` with any one parameter
negative disables the per-device fade override entirely — all three effective
fade parameters fall back to the global configuration defaults — and the call
returns true. -/
theorem setFadeParams_negative_resets (e : EngineState) (D : Nat)
    (mn mx pan : Rat) (io : FadeIO) (hneg : mn < 0 ∨ mx < 0 ∨ pan < 0) :
    (runBoolCommandInline D (setFadeParamsCmd mn mx pan io) e).2 = true ∧
    ∃ d, (runBoolCommandInline D (setFadeParamsCmd mn mx pan io) e).1.deviceStates D =
        some d ∧
      d.fadeOverride.enabled = false ∧
      effectiveFadeParams e.config d =
        (e.config.minFadeDistance, e.config.maxFadeDistance, e.config.panDistance) := by
  have hcore := setFadeParams_negative_resets_core (switchToDevice e D) mn mx pan io hneg
  have hcur := switchToDevice_currentDeviceId_eq e D
  have hcfg := (switchToDevice_channels_config e D).2
  rw [runBoolCommandInline]
  refine ⟨hcore.1, ?_⟩
  obtain ⟨d, hd, hen, heff⟩ := hcore.2
  rw [hcur] at hd
  rw [hcfg] at heff
  exact ⟨d, hd, hen, heff⟩

/-- C7 witness: resetting with a negative minimum distance on a fresh engine
state and device id 7. -/
theorem setFadeParams_negative_resets_witness :
    ((-1 : Rat) < 0 ∨ (10 : Rat) < 0 ∨ (5 : Rat) < 0) ∧
    ((runBoolCommandInline 7 (setFadeParamsCmd (-1) 10 5 {}) {}).2 = true ∧
    ∃ d, (runBoolCommandInline 7 (setFadeParamsCmd (-1) 10 5 {}) {}).1.deviceStates 7 =
        some d ∧
      d.fadeOverride.enabled = false ∧
      effectiveFadeParams (EngineState.config {}) d =
        ((EngineState.config {}).minFadeDistance, (EngineState.config {}).maxFadeDistance,
          (EngineState.config {}).panDistance)) :=
  ⟨Or.inl (by norm_num),
    setFadeParams_negative_resets {} 7 (-1) 10 5 {} (Or.inl (by norm_num))⟩

/-- `setVolume` on a non-Playing live state: the fade reapplication is a
no-op, so the command's whole effect is storing the clamped gain on the
current device's entry. -/
theorem setVolumeCmd_of_not_playing (v : Rat) (io : FadeIO) (s : EngineState)
    (h : s.live.state ≠ PlaybackState.playing) :
    (setVolumeCmd v io s).1 =
      { s with
        deviceStates :=
          updateDeviceEntry (ensureDeviceState s.deviceStates s.currentDeviceId).2
            s.currentDeviceId
            { (ensureDeviceState s.deviceStates s.currentDeviceId).1 with
              volumeGain := clampQ v 0 200 / 100 } } := by
  rw [setVolumeCmd]
  dsimp only
  exact updateFadeVolume_not_playing io _ h

/-- The dispatch core of device isolation: running `setVolume` on a
post-switch state `sw` whose live state is Stopped reports success, leaves
device `B`'s stored snapshot untouched, keeps `A` current, and keeps the
catalog and the Stopped live state. -/
theorem setVolumeCmd_sync_facts (sw : EngineState) (A B : Nat) (snap : DeviceState)
    (v : Rat) (io : FadeIO) (hBA : B ≠ A)
    (s1 : sw.currentDeviceId = A)
    (s2 : sw.live.state = PlaybackState.stopped)
    (s4 : sw.deviceStates B = some snap) :
    (setVolumeCmd v io sw).2 = true ∧
    (syncCurrentDeviceState (setVolumeCmd v io sw).1).deviceStates B = some snap ∧
    (syncCurrentDeviceState (setVolumeCmd v io sw).1).currentDeviceId = A ∧
    (syncCurrentDeviceState (setVolumeCmd v io sw).1).channels = sw.channels ∧
    (syncCurrentDeviceState (setVolumeCmd v io sw).1).live.state =
      PlaybackState.stopped := by
  have hnp : sw.live.state ≠ PlaybackState.playing := by
    rw [s2]
    exact fun hh => PlaybackState.noConfusion hh
  have hC := setVolumeCmd_of_not_playing v io sw hnp
  have hBsw : B ≠ sw.currentDeviceId := by rw [s1]; exact hBA
  refine ⟨rfl, ?_, ?_, ?_, ?_⟩
  · rw [hC]
    dsimp only [syncCurrentDeviceState]
    rw [updateDeviceEntry_other _ _ _ _ hBsw, updateDeviceEntry_other _ _ _ _ hBsw,
      ensureDeviceState_snd_other _ _ _ hBsw]
    exact s4
  · rw [hC]
    exact s1
  · rw [hC]
    rfl
  · rw [hC]
    exact s2

/-- C5 [corrected]: operating on device A with `setVolume` while device B is
current does not change B's `getVolume` or `currentSourceName` observations,
and the command reports success — but, contrary to the claim's `isPlaying`
clause, a live B is forced to Stopped when superseded, so B's `isPlaying`
reads false afterwards; and switching back to B restores B's live state
exactly when B was not live, and restores it with the playback state forced
to Stopped (start-time flag cleared) when it was. -/
theorem setVolume_on_other_device_isolation
    (e : EngineState) (A B : Nat) (v : Rat) (io : FadeIO)
    (hAB : A ≠ B) (hcur : e.currentDeviceId = B) :
    (runBoolCommandInline A (setVolumeCmd v io) e).2 = true ∧
    getVolumeObs (runBoolCommandInline A (setVolumeCmd v io) e).1 B =
      getVolumeObs e B ∧
    currentSourceNameObs (runBoolCommandInline A (setVolumeCmd v io) e).1 B =
      currentSourceNameObs e B ∧
    isPlayingObs (runBoolCommandInline A (setVolumeCmd v io) e).1 B = false ∧
    ((e.live.state = PlaybackState.playing ∨ e.live.state = PlaybackState.paused) →
      (switchToDevice (runBoolCommandInline A (setVolumeCmd v io) e).1 B).live =
        { e.live with state := PlaybackState.stopped, trackStartValid := false }) ∧
    (¬(e.live.state = PlaybackState.playing ∨ e.live.state = PlaybackState.paused) →
      (switchToDevice (runBoolCommandInline A (setVolumeCmd v io) e).1 B).live =
        e.live) := by
  have hA : ¬(A = e.currentDeviceId) := by rw [hcur]; exact hAB
  have hBA : B ≠ A := fun hh => hAB hh.symm
  have s1 := switchToDevice_ne_currentDeviceId e A hA
  have s2 := switchToDevice_ne_live_state e A hA
  have s3 := (switchToDevice_channels_config e A).1
  have s4 := switchToDevice_ne_ds_current e A hA
  rw [hcur] at s4
  set snap : DeviceState :=
    (if e.live.state = PlaybackState.playing ∨ e.live.state = PlaybackState.paused
      then { makeCurrentDeviceState e with
              state := PlaybackState.stopped, trackStartValid := false }
      else makeCurrentDeviceState e) with hsnap
  have core := setVolumeCmd_sync_facts (switchToDevice e A) A B snap v io hBA s1 s2 s4
  have hr1B := core.2.1
  have hr1cur := core.2.2.1
  have hr1ch : (syncCurrentDeviceState
      (setVolumeCmd v io (switchToDevice e A)).1).channels = e.channels :=
    core.2.2.2.1.trans s3
  have hsg : snap.volumeGain = (makeCurrentDeviceState e).volumeGain := by
    rw [hsnap]
    split <;> rfl
  have hsk : snap.selectedKey = e.live.selectedKey := by
    rw [hsnap]
    split <;> rfl
  have hsnp : snap.state ≠ PlaybackState.playing := by
    rw [hsnap]
    split
    · exact fun hh => PlaybackState.noConfusion hh
    next hnc => exact fun hh => hnc (Or.inl hh)
  rw [runBoolCommandInline]
  dsimp only
  refine ⟨core.1, ?_, ?_, ?_, ?_, ?_⟩
  · rw [getVolumeObs, getVolumeObs, hr1B]
    dsimp only
    rw [hsg]
    cases hB : e.deviceStates B with
    | some d =>
      have hmk := (makeCurrent_fade_gain e d (by rw [hcur]; exact hB)).2
      rw [hmk]
    | none =>
      have hmk : (makeCurrentDeviceState e).volumeGain = 1 := by
        simp [makeCurrentDeviceState, hcur, hB]
      rw [hmk]
      norm_num [clampQ]
  · rw [currentSourceNameObs, currentSourceNameObs, hr1cur, hr1B, hr1ch, hcur,
      if_neg hBA, if_pos rfl]
    dsimp only
    rw [hsk]
  · rw [isPlayingObs, hr1cur, if_neg hBA, hr1B]
    dsimp only
    exact beq_eq_false_iff_ne.mpr hsnp
  · intro hplay
    have hBr1 : ¬(B = (syncCurrentDeviceState
        (setVolumeCmd v io (switchToDevice e A)).1).currentDeviceId) := by
      rw [hr1cur]
      exact hBA
    rw [switchToDevice_ne_live_of_some _ B hBr1 snap hr1B, hsnap, if_pos hplay,
      if_neg (fun hh => hh rfl)]
    rfl
  · intro hplay
    have hBr1 : ¬(B = (syncCurrentDeviceState
        (setVolumeCmd v io (switchToDevice e A)).1).currentDeviceId) := by
      rw [hr1cur]
      exact hBA
    have hstop : e.live.state = PlaybackState.stopped := by
      cases hst : e.live.state with
      | playing => exact absurd (Or.inl hst) hplay
      | paused => exact absurd (Or.inr hst) hplay
      | stopped => rfl
    rw [switchToDevice_ne_live_of_some _ B hBr1 snap hr1B, hsnap, if_neg hplay,
      show (makeCurrentDeviceState e).state = e.live.state from rfl, hstop,
      if_neg (fun hh => hh rfl)]
    rfl

/-- A concrete engine state for exercising device isolation: device 2 is
current and live (Playing) on a station channel. -/
def c5DemoState : EngineState :=
  { currentDeviceId := 2
    channels :=
      [("station/demo",
        { key := "station/demo", displayName := "Demo", type := ChannelType.station,
          songs := ["C:/music/station/demo/a.wav"] })]
    live :=
      { selectedKey := "station/demo"
        mode := PlaybackMode.station
        state := PlaybackState.playing } }

/-- C5 counterexample to the claim's `isPlaying` clause: with device 2
current and Playing, `setVolume(150)` issued for device 1 supersedes device
2 and forces its persisted state to Stopped, so `isPlaying(2)` flips from
true to false. -/
theorem setVolume_on_other_device_flips_isPlaying :
    isPlayingObs c5DemoState 2 = true ∧
    isPlayingObs (runBoolCommandInline 1 (setVolumeCmd 150 {}) c5DemoState).1 2 =
      false :=
  ⟨rfl, rfl⟩

/-- C5 witness: the isolation theorem at the demo state, device A = 1,
device B = 2, volume 150. -/
theorem setVolume_on_other_device_isolation_witness :
    ((1 : Nat) ≠ 2 ∧ c5DemoState.currentDeviceId = 2) ∧
    ((runBoolCommandInline 1 (setVolumeCmd 150 {}) c5DemoState).2 = true ∧
      getVolumeObs (runBoolCommandInline 1 (setVolumeCmd 150 {}) c5DemoState).1 2 =
        getVolumeObs c5DemoState 2 ∧
      currentSourceNameObs
          (runBoolCommandInline 1 (setVolumeCmd 150 {}) c5DemoState).1 2 =
        currentSourceNameObs c5DemoState 2 ∧
      isPlayingObs (runBoolCommandInline 1 (setVolumeCmd 150 {}) c5DemoState).1 2 =
        false ∧
      ((c5DemoState.live.state = PlaybackState.playing ∨
          c5DemoState.live.state = PlaybackState.paused) →
        (switchToDevice
            (runBoolCommandInline 1 (setVolumeCmd 150 {}) c5DemoState).1 2).live =
          { c5DemoState.live with
            state := PlaybackState.stopped, trackStartValid := false }) ∧
      (¬(c5DemoState.live.state = PlaybackState.playing ∨
          c5DemoState.live.state = PlaybackState.paused) →
        (switchToDevice
            (runBoolCommandInline 1 (setVolumeCmd 150 {}) c5DemoState).1 2).live =
          c5DemoState.live)) :=
  ⟨⟨by decide, rfl⟩,
    setVolume_on_other_device_isolation c5DemoState 1 2 150 {} (by decide) rfl⟩

/-- `kCommandWaitTimeout` (source line 37): the caller-side wait bound in
milliseconds. -/
def kCommandWaitTimeoutMs : Nat := 5000

/-- The worker-control flags `runBoolCommandForDevice` reads but never
writes: `workerRunning_` and `stopWorker_`. -/
structure WorkerFlags where
  workerRunning : Bool := false
  stopWorker : Bool := false
deriving DecidableEq, Repr

/-- The caller-side decision logic of `RadioEngine::runBoolCommandForDevice`
(source lines 3364-3419), abstracted over the synchronisation outcome: when
the worker is not running, or the caller *is* the worker thread, the command
runs inline and its result is returned; otherwise the command is queued and
the caller waits on the condition variable with bound `kCommandWaitTimeoutMs`
for `pending->done || !workerRunning_`.  `pendingDone` and
`workerRunningAtWake` are the values of those two flags when the wait
returns (the `cv_.wait_for` predicate's arguments at its final evaluation;
the model takes as given that the bounded wait always returns).  Returns the
command's boolean result and the worker-control flags as the caller leaves
them. -/
def runBoolCommandCaller (flags : WorkerFlags) (onWorkerThread : Bool)
    (inlineResult : Bool) (pendingDone pendingResult workerRunningAtWake : Bool) :
    Bool × WorkerFlags :=
  if flags.workerRunning = false then (inlineResult, flags)
  else if onWorkerThread = true then (inlineResult, flags)
  else
    let completed := pendingDone || !workerRunningAtWake
    if completed = false then (false, flags)
    else if pendingDone = true then (pendingResult, flags)
    else (false, flags)

/-- C9: with the worker running and the caller not on the worker thread, a
queued command that never completes (`pendingDone = false` at every
evaluation of the wait predicate, worker still running) makes the bounded
wait expire unsatisfied, so the caller receives `false` — and the caller
leaves both worker-control flags untouched (the worker is not torn down);
the wait bound is the configured 5000 ms.  (The real bound on the blocking
time itself is `cv_.wait_for`'s contract and is taken as given.) -/
theorem command_timeout_returns_false (flags : WorkerFlags)
    (inlineResult pendingResult : Bool) (hrun : flags.workerRunning = true) :
    runBoolCommandCaller flags false inlineResult false pendingResult true =
      (false, flags) ∧
    kCommandWaitTimeoutMs = 5000 := by
  constructor
  · rw [runBoolCommandCaller, hrun]
    simp
  · rfl

/-- C9 witness: the timeout theorem with the worker running and no stop
request. -/
theorem command_timeout_returns_false_witness :
    ({ workerRunning := true, stopWorker := false } : WorkerFlags).workerRunning =
      true ∧
    (runBoolCommandCaller { workerRunning := true, stopWorker := false } false true
        false true true =
      (false, { workerRunning := true, stopWorker := false }) ∧
    kCommandWaitTimeoutMs = 5000) :=
  ⟨rfl, command_timeout_returns_false
    { workerRunning := true, stopWorker := false } true true rfl⟩

end RadioSFSE
